import Mathlib

/-!
Verification of the Productivity Enforcer accountability engine
(src/mcp_productivity_assistant.py).

The engine is a single-document state machine: every tool call loads the
JSON document, mutates it, and saves it back.  We embed the document as a
Lean structure and every tool as an explicit state transformer
`Doc → args → Doc × Except PyErr Result`, where the first component is the
content of the backing store after the call and `Except` captures an
uncaught Python exception escaping the call.

Modelling conventions, fixed throughout:
* ISO date strings stay strings; `parseDate` embeds
  `datetime.strptime(s, "%Y-%m-%d")`, returning the day number of the date
  (Gregorian, days since 0000-03-01) or `none` for any string that strptime
  would reject with `ValueError`.
* The wall-clock date `datetime.now().date()` is passed in as the pair of
  its ISO string `todayS` and its day number `todayN` (the source uses the
  string for dictionary-key comparisons and the date object for day
  arithmetic).
* Python numbers are embedded as `ℚ`, and CPython's IEEE-754 binary64
  arithmetic is embedded exactly in the value pipelines the claims are
  about — the stored completion rate, the trend means, the dedication
  formula, the day-off permissibility score, and the burnout-risk
  accumulator: `fl` rounds a rational to the nearest double
  (ties-to-even), `fadd`/`fsub`/`fmul`/`fdiv` are the correctly rounded
  double operations built from it, and `pyRound2F` embeds `round(x, 2)`
  on a float (CPython rounds the exact value of the double half-to-even
  to two decimals, then returns the nearest double to that decimal).
  The double model covers magnitudes in `[2 ^ (-80), 2 ^ 80)`, far inside
  the normal range; the engine's numerics (rates in [0,1], small
  counters, short sums) never approach its edges.  The burnout-risk
  accumulator uses an equivalent fixed-point integer form of the same
  double model (see `flS` below), convenient for its fixed operand range.
  Two deliberate exact-value readings remain: comparisons of document
  fields against decimal literals (such as `trend < 0.6`) read the
  literal at its exact decimal value, and the plan-time total (a sum of
  JSON numbers that are integers in the documented usage, where Python
  sums exactly) stays an exact sum.  `pyRound2` is rounding of an exact
  rational to two decimals, used to state what the spec's
  exact-arithmetic reading would produce.
* Python dicts are embedded as insertion-ordered association lists with
  unique keys; `alookup` is key lookup and `aset` is `d[k] = v` (update in
  place, or append at the end for a fresh key).
* `analytics["last_task_date"]` can be missing or `None` in Python; both
  are falsy, and the empty string (also falsy) models the unset state.
-/

inductive PyErr where
  | valueError
deriving DecidableEq

/-- Round-half-to-even of a rational to an integer (the tie-breaking rule of
the Python builtin `round`). -/
def rndHalfEven (x : ℚ) : ℤ :=
  let n := ⌊x⌋
  if x - n < 1/2 then n
  else if (1:ℚ)/2 < x - n then n + 1
  else if n % 2 = 0 then n else n + 1

/-- `round(x, 2)` on an exact rational (round-half-to-even): the
exact-arithmetic reading of the spec's formulas, used on the spec side of
refinement statements. -/
def pyRound2 (x : ℚ) : ℚ := (rndHalfEven (x * 100) : ℚ) / 100

/-- `2 ^ e` as a rational, for an integer exponent of either sign. -/
def pow2 (e : ℤ) : ℚ := (2:ℚ) ^ e

/-- One bisection step of the binade search: given `pow2 p.1 ≤ a < pow2 p.2`,
narrows the bracket while keeping the invariant. -/
def bisectStep (a : ℚ) (p : ℤ × ℤ) : ℤ × ℤ :=
  let mid := (p.1 + p.2) / 2
  if pow2 mid ≤ a then (mid, p.2) else (p.1, mid)

/-- The binade of `a`: the unique `e` with `2 ^ e ≤ a < 2 ^ (e + 1)`, for
`2 ^ (-80) ≤ a < 2 ^ 80`.  Eight bisection steps shrink the initial bracket
`[-80, 81)` of width 161 to width 1. -/
def binadeSearch (a : ℚ) : ℤ :=
  (bisectStep a (bisectStep a (bisectStep a (bisectStep a (bisectStep a
    (bisectStep a (bisectStep a (bisectStep a (-80, 81))))))))).1

/-- Rounds a rational to the nearest IEEE-754 binary64 value (ties to even):
the mantissa is `a` scaled into `[2 ^ 52, 2 ^ 53)` and rounded half-to-even.
The model covers magnitudes in `[2 ^ (-80), 2 ^ 80)` (values outside pass
through unchanged): the engine's numerics — completion rates in `[0, 1]`,
two-decimal roundings, day-count factors, short sums and small weighted
averages of these — all live far inside this range, which in turn sits far
inside the normal (non-subnormal, non-overflowing) double range where the
53-bit grid used here is exactly IEEE-754. -/
def fl (q : ℚ) : ℚ :=
  if q = 0 then 0
  else
    let a := if q < 0 then -q else q
    if a < pow2 (-80) ∨ pow2 80 ≤ a then q
    else
      let e := binadeSearch a
      let r := (rndHalfEven (a * pow2 (52 - e)) : ℚ) * pow2 (e - 52)
      if q < 0 then -r else r

/-- Correctly rounded double addition. -/
def fadd (a b : ℚ) : ℚ := fl (a + b)

/-- Correctly rounded double subtraction. -/
def fsub (a b : ℚ) : ℚ := fl (a - b)

/-- Correctly rounded double multiplication. -/
def fmul (a b : ℚ) : ℚ := fl (a * b)

/-- Correctly rounded double division (CPython `int / int` and
`float / float` are both correctly rounded). -/
def fdiv (a b : ℚ) : ℚ := fl (a / b)

/-- `round(x, 2)` on a float: CPython rounds the EXACT value of the double
half-to-even to two decimal places and returns the nearest double to the
resulting decimal. -/
def pyRound2F (x : ℚ) : ℚ := fl ((rndHalfEven (x * 100) : ℚ) / 100)

/-- The exact value of the IEEE double written `0.2` in the source. -/
def d02q : ℚ := 3602879701896397 / 18014398509481984

/-- The exact value of the IEEE double written `0.3` in the source. -/
def d03q : ℚ := 5404319552844595 / 18014398509481984

/-- The exact value of the IEEE double written `0.4` in the source. -/
def d04q : ℚ := 3602879701896397 / 9007199254740992

/-- The exact value of the IEEE double written `0.7` in the source. -/
def d07q : ℚ := 3152519739159347 / 4503599627370496

def digitVal (c : Char) : ℕ := c.toNat - 48

def isLeapYear (y : ℕ) : Bool := y % 4 = 0 && (y % 100 ≠ 0 || y % 400 = 0)

def daysInMonth (y m : ℕ) : ℕ :=
  if m = 2 then (if isLeapYear y then 29 else 28)
  else if m = 4 ∨ m = 6 ∨ m = 9 ∨ m = 11 then 30
  else 31

/-- Day number of a Gregorian date, counted from 0000-03-01 (the civil-days
algorithm), restricted to the years `datetime` accepts (`y ≥ 1`). -/
def daysFromCivil (y m d : ℕ) : ℕ :=
  let ys := if m ≤ 2 then y - 1 else y
  let era := ys / 400
  let yoe := ys % 400
  let mp := if 2 < m then m - 3 else m + 9
  let doy := (153 * mp + 2) / 5 + (d - 1)
  let doe := yoe * 365 + yoe / 4 - yoe / 100 + doy
  era * 146097 + doe

/-- Embeds `datetime.strptime(s, "%Y-%m-%d").date()`: accepts exactly the
strings `"YYYY-MM-DD"` denoting a valid calendar date with year ≥ 1 and
returns its day number; every other string raises `ValueError` (`none`).
In particular a range string such as `"2025-07-15 to 2025-07-23"` is
rejected. -/
def parseDate (s : String) : Option ℕ :=
  match s.data with
  | [y1, y2, y3, y4, h1, m1, m2, h2, d1, d2] =>
    if y1.isDigit ∧ y2.isDigit ∧ y3.isDigit ∧ y4.isDigit ∧ h1 = '-' ∧
       m1.isDigit ∧ m2.isDigit ∧ h2 = '-' ∧ d1.isDigit ∧ d2.isDigit then
      let y := ((digitVal y1 * 10 + digitVal y2) * 10 + digitVal y3) * 10 + digitVal y4
      let m := digitVal m1 * 10 + digitVal m2
      let d := digitVal d1 * 10 + digitVal d2
      if 1 ≤ y ∧ 1 ≤ m ∧ m ≤ 12 ∧ 1 ≤ d ∧ d ≤ daysInMonth y m then
        some (daysFromCivil y m d)
      else none
    else none
  | _ => none

/-- Python string `<` on char lists: lexicographic by code point. -/
def strLtB : List Char → List Char → Bool
  | [], [] => false
  | [], _ :: _ => true
  | _ :: _, [] => false
  | a :: as, b :: bs => if a < b then true else if b < a then false else strLtB as bs

/-- Embeds the Python string comparison `a < b`. -/
def strLt (a b : String) : Bool := strLtB a.data b.data

theorem strLtB_irrefl (l : List Char) : strLtB l l = false := by
  induction l with
  | nil => rfl
  | cons a as ih => simp [strLtB, ih]

theorem strLtB_trans {a b c : List Char} (hab : strLtB a b = true)
    (hbc : strLtB b c = true) : strLtB a c = true := by
  induction a generalizing b c with
  | nil =>
    cases b with
    | nil => simp [strLtB] at hab
    | cons y ys =>
      cases c with
      | nil => simp [strLtB] at hbc
      | cons z zs => simp [strLtB]
  | cons x xs ih =>
    cases b with
    | nil => simp [strLtB] at hab
    | cons y ys =>
      cases c with
      | nil => simp [strLtB] at hbc
      | cons z zs =>
        simp only [strLtB] at hab hbc ⊢
        rcases lt_trichotomy x y with hxy | rfl | hyx
        · rcases lt_trichotomy y z with hyz | rfl | hzy
          · rw [if_pos (lt_trans hxy hyz)]
          · rw [if_pos hxy]
          · rw [if_neg (lt_asymm hzy), if_pos hzy] at hbc
            exact Bool.noConfusion hbc
        · rw [if_neg (lt_irrefl x), if_neg (lt_irrefl x)] at hab
          rcases lt_trichotomy x z with hxz | rfl | hzx
          · rw [if_pos hxz]
          · rw [if_neg (lt_irrefl x), if_neg (lt_irrefl x)] at hbc ⊢
            exact ih hab hbc
          · rw [if_neg (lt_asymm hzx), if_pos hzx] at hbc
            exact Bool.noConfusion hbc
        · rw [if_neg (lt_asymm hyx), if_pos hyx] at hab
          exact Bool.noConfusion hab

theorem strLt_irrefl (s : String) : strLt s s = false := strLtB_irrefl s.data

theorem strLt_trans {a b c : String} (hab : strLt a b = true)
    (hbc : strLt b c = true) : strLt a c = true := strLtB_trans hab hbc

/-- The minimum of a list of strings under Python string order; embeds
`sorted(l)[0]` for nonempty `l` (the head of the sorted list is the
minimum). -/
def minString : List String → Option String
  | [] => none
  | x :: xs => some (xs.foldl (fun a b => if strLt b a then b else a) x)

theorem strLtB_eq_or_gt {a b : List Char} (h : strLtB a b = false) :
    a = b ∨ strLtB b a = true := by
  induction a generalizing b with
  | nil =>
    cases b with
    | nil => exact Or.inl rfl
    | cons y ys => simp [strLtB] at h
  | cons x xs ih =>
    cases b with
    | nil => exact Or.inr rfl
    | cons y ys =>
      simp only [strLtB] at h ⊢
      rcases lt_trichotomy x y with hxy | rfl | hyx
      · rw [if_pos hxy] at h
        exact Bool.noConfusion h
      · rw [if_neg (lt_irrefl x), if_neg (lt_irrefl x)] at h ⊢
        rcases ih h with rfl | htail
        · exact Or.inl rfl
        · exact Or.inr htail
      · rw [if_pos hyx]
        exact Or.inr rfl

theorem strLt_eq_or_gt {a b : String} (h : strLt a b = false) :
    a = b ∨ strLt b a = true := by
  rcases strLtB_eq_or_gt h with hd | hgt
  · left
    cases a; cases b
    exact congrArg String.mk hd
  · exact Or.inr hgt

/-- Not below and not above compose: if `m ≤ z` and `w ≤ m` in Python string
order, then `z < w` is false. -/
theorem strLt_false_trans {z m w : String} (hzm : strLt z m = false)
    (hmw : strLt m w = false) : strLt z w = false := by
  cases hzw : strLt z w with
  | false => rfl
  | true =>
    exfalso
    rcases strLt_eq_or_gt hzm with rfl | hmz
    · rw [hzw] at hmw
      exact Bool.noConfusion hmw
    · have hmwt : strLt m w = true := strLt_trans hmz hzw
      rw [hmwt] at hmw
      exact Bool.noConfusion hmw

theorem minString_spec (l : List String) (m : String) (h : minString l = some m) :
    m ∈ l ∧ ∀ x ∈ l, strLt x m = false := by
  match l with
  | [] => simp [minString] at h
  | x :: xs =>
    simp only [minString, Option.some.injEq] at h
    subst h
    induction xs generalizing x with
    | nil =>
      refine ⟨by simp, ?_⟩
      intro z hz
      simp only [List.foldl_nil, List.mem_singleton] at hz ⊢
      subst hz
      exact strLt_irrefl z
    | cons y ys ih =>
      simp only [List.foldl_cons]
      by_cases hy : strLt y x = true
      · simp only [hy, if_true]
        obtain ⟨m1, m2⟩ := ih y
        refine ⟨?_, ?_⟩
        · rcases List.mem_cons.mp m1 with hh | hh
          · simp [hh]
          · simp [hh]
        · intro z hz
          rcases List.mem_cons.mp hz with rfl | hz'
          · -- z is the displaced accumulator: y < z, and the fold result is ≤ y
            have hyf : strLt y (List.foldl (fun a b => if strLt b a then b else a) y ys)
                = false := m2 y (by simp)
            cases hzf : strLt z (List.foldl (fun a b => if strLt b a then b else a) y ys) with
            | false => rfl
            | true =>
              exfalso
              have := strLt_trans hy hzf
              rw [this] at hyf
              exact Bool.noConfusion hyf
          · exact m2 z hz'
      · simp only [hy, if_false]
        obtain ⟨m1, m2⟩ := ih x
        refine ⟨?_, ?_⟩
        · rcases List.mem_cons.mp m1 with hh | hh
          · simp [hh]
          · simp [hh]
        · intro z hz
          rcases List.mem_cons.mp hz with rfl | hz'
          · exact m2 z (by simp)
          · rcases List.mem_cons.mp hz' with rfl | hz''
            · -- z = y with strLt y x = false: fold ≤ x ≤ y
              have hxf : strLt x (List.foldl (fun a b => if strLt b a then b else a) x ys)
                  = false := m2 x (by simp)
              have hyx : strLt z x = false := by simpa using hy
              exact strLt_false_trans hyx hxf
            · exact m2 z (by simp [hz''])

/-! ## Data model (the JSON document of `productivity_data.json`) -/

/-- An entry of the `partial` / `skipped` lists passed to `report`: a dict
with a `name` and an optional `reason` (`task.get("reason", "unknown")`). -/
structure TaskRef where
  name : String
  reason : Option String
deriving DecidableEq

/-- A planned task: a dict with a `name` and `estimated_time`
(`task.get("estimated_time", 0)` is summed into `total_time`).  Named
`PlanTask` because `Task` is taken by the Lean core library. -/
structure PlanTask where
  name : String
  estimated_time : ℚ
deriving DecidableEq

structure Plan where
  tasks : List PlanTask
  context : String
  energy_level : String
  total_time : ℚ
  created_at : String
deriving DecidableEq

/-- A stored daily report.  The source field `partial` is a Lean keyword and
is embedded as `partials`. -/
structure Report where
  completed : List String
  partials : List TaskRef
  skipped : List TaskRef
  completion_rate : ℚ
  reported_at : String
deriving DecidableEq

structure ProblemTask where
  skip_count : ℤ
  skip_reasons : List String
deriving DecidableEq

structure LogEntry where
  date : String
  reason : String
  logged_at : String
deriving DecidableEq

/-- The `analytics` record.  `completion_trends` is flattened into its two
fields `last_7_days` / `last_30_days`.  `last_task_date := ""` models the
missing / `None` (falsy) state. -/
structure Analytics where
  problem_tasks : List (String × ProblemTask)
  last_7_days : ℚ
  last_30_days : ℚ
  dedication_percentage : ℚ
  absence_counter : ℤ
  last_task_date : String
  semester_phase : String
  consecutive_high_intensity_days : ℤ
  burnout_risk : String
  absence_log : List LogEntry
  holidays_log : List LogEntry
deriving DecidableEq

/-- The whole document.  `long_term_tasks` is an opaque mapping owned by an
external collaborator; the engine only round-trips it. -/
structure Doc where
  plan : List (String × Plan)
  reports : List (String × Report)
  long_term_tasks : List (String × String)
  analytics : Analytics
deriving DecidableEq

/-- Dictionary lookup (`d.get(k)` / `d[k]`). -/
def alookup {α : Type} : List (String × α) → String → Option α
  | [], _ => none
  | (k, v) :: t, key => if k = key then some v else alookup t key

/-- Dictionary write `d[k] = v`: replaces in place, or appends a fresh key
at the end (Python dicts keep insertion order). -/
def aset {α : Type} : List (String × α) → String → α → List (String × α)
  | [], key, v => [(key, v)]
  | (k, w) :: t, key, v => if k = key then (key, v) :: t else (k, w) :: aset t key v

theorem alookup_aset_self {α : Type} (l : List (String × α)) (k : String) (v : α) :
    alookup (aset l k v) k = some v := by
  induction l with
  | nil => simp [aset, alookup]
  | cons p t ih =>
    obtain ⟨pk, pv⟩ := p
    by_cases h : pk = k
    · simp [aset, h, alookup]
    · simp [aset, h, alookup, ih]

theorem alookup_aset_other {α : Type} (l : List (String × α)) (k k' : String) (v : α)
    (h : k' ≠ k) : alookup (aset l k v) k' = alookup l k' := by
  have hk : k ≠ k' := fun hh => h hh.symm
  induction l with
  | nil =>
    simp only [aset, alookup]
    rw [if_neg hk]
  | cons p t ih =>
    obtain ⟨pk, pv⟩ := p
    by_cases hp : pk = k
    · subst hp
      simp only [aset, if_pos rfl, alookup]
      rw [if_neg hk, if_neg hk]
    · simp only [aset, if_neg hp, alookup, ih]

/-- `_get_default_data()`: the default document, with `last_task_date` set
to today. -/
def defaultDoc (todayS : String) : Doc where
  plan := []
  reports := []
  long_term_tasks := []
  analytics :=
    { problem_tasks := []
      last_7_days := 0
      last_30_days := 0
      dedication_percentage := 0.7
      absence_counter := 0
      last_task_date := todayS
      semester_phase := "N/A"
      consecutive_high_intensity_days := 0
      burnout_risk := "low"
      absence_log := []
      holidays_log := [] }

/-! ## IEEE-754 double addition for the burnout score

Every value the accumulator `risk_score` can take in
`_calculate_burnout_risk` is an IEEE double in `[0, 2)` that is an integer
multiple of `2 ^ (-56)`.  We therefore embed these doubles as the integer
`value * 2 ^ 56` and embed float addition exactly: add the integers, then
round to the precision grid of the result binade (round-half-to-even),
which is the IEEE rounding of the exact sum. -/

/-- Round `n` to the nearest multiple of the grid `g`, ties to the even
multiple. -/
def rnd2grid (n g : ℕ) : ℕ :=
  let q := n / g
  let r := n % g
  if 2 * r < g then q * g
  else if g < 2 * r then (q + 1) * g
  else if q % 2 = 0 then q * g else (q + 1) * g

/-- Round a `2 ^ 56`-scaled exact value to the nearest double (values below
`2 ^ (-4)` are already on the grid; the accumulator never exceeds 2). -/
def flS (n : ℕ) : ℕ :=
  if n < 2 ^ 53 then n
  else if n < 2 ^ 54 then rnd2grid n 2
  else if n < 2 ^ 55 then rnd2grid n 4
  else if n < 2 ^ 56 then rnd2grid n 8
  else if n < 2 ^ 57 then rnd2grid n 16
  else rnd2grid n 32

/-- Float addition of two `2 ^ 56`-scaled doubles. -/
def faddS (a b : ℕ) : ℕ := flS (a + b)

/-- The double `0.1` (`3602879701896397 * 2 ^ (-55)`), scaled by `2 ^ 56`. -/
def dbl01 : ℕ := 7205759403792794

/-- The double `0.2`, scaled by `2 ^ 56`. -/
def dbl02 : ℕ := 14411518807585588

/-- The double `0.3`, scaled by `2 ^ 56`. -/
def dbl03 : ℕ := 21617278211378380

/-- The double `0.15`, scaled by `2 ^ 56`. -/
def dbl015 : ℕ := 10808639105689190

/-- The double `0.25` (exact), scaled by `2 ^ 56`. -/
def dbl025 : ℕ := 18014398509481984

/-- The double `0.8`, scaled by `2 ^ 56`. -/
def dbl08 : ℕ := 57646075230342352

/-- The double `0.6`, scaled by `2 ^ 56`. -/
def dbl06 : ℕ := 43234556422756760

/-- The double `0.4`, scaled by `2 ^ 56`. -/
def dbl04 : ℕ := 28823037615171176

/-! ## Analytics recalculation -/

/-- `_get_recent_reports(data, days)`: reports whose parse-able date `d`
satisfies `(today - d).days < days`.  Note there is no lower bound, and
unparseable date keys are skipped (`except ValueError: continue`). -/
def get_recent_reports (doc : Doc) (todayN : ℤ) (days : ℤ) : List Report :=
  (doc.reports.filter (fun p =>
    match parseDate p.1 with
    | some d => decide (todayN - (d : ℤ) < days)
    | none => false)).map Prod.snd

/-- `sum(r["completion_rate"] for r in rs) / len(rs) if rs else 0.0`: Python
`sum()` is a left fold of double additions from 0, followed by a double
division. -/
def meanCompletion (rs : List Report) : ℚ :=
  if rs = [] then 0
  else fdiv ((rs.map Report.completion_rate).foldl fadd 0) (rs.length : ℚ)

/-- `_update_absence_counter()`: loads the document from the backing store,
refreshes `absence_counter`, and saves.  The argument is the store content;
the result is the new store content.  `strptime` on an unparseable
`last_task_date` raises (`ValueError`). -/
def update_absence_counter (disk : Doc) (todayN : ℤ) : Except PyErr Doc :=
  if disk.analytics.last_task_date = "" then .ok disk
  else
    match parseDate disk.analytics.last_task_date with
    | none => .error .valueError
    | some last =>
      .ok { disk with analytics.absence_counter := max 0 (todayN - (last : ℤ) - 1) }

/-- `_calculate_dedication_percentage(data)`: reads the in-memory document
(14-day completion mean, the document value of `absence_counter`, and the
intensity streak). -/
def calculate_dedication_percentage (doc : Doc) (todayN : ℤ) : ℚ :=
  let completion_rate_14_days := meanCompletion (get_recent_reports doc todayN 14)
  let consistency_score : ℚ :=
    max 0 (fsub 1 (fmul (fl (doc.analytics.absence_counter : ℚ)) d02q))
  let intensity_factor : ℚ :=
    if doc.analytics.consecutive_high_intensity_days ≤ 3 then 1
    else max 0 (fsub 1
      (fmul (fl ((doc.analytics.consecutive_high_intensity_days : ℚ) - 3)) (1/4)))
  pyRound2F (fadd (fadd (fmul completion_rate_14_days (1/2))
    (fmul consistency_score d03q)) (fmul intensity_factor d02q))

/-- The `risk_score` accumulator of `_calculate_burnout_risk`, in the
`2 ^ 56`-scaled double embedding. -/
def riskScoreS (doc : Doc) : ℕ :=
  let a := doc.analytics
  let s1 := if 3 ≤ a.consecutive_high_intensity_days then faddS 0 dbl03 else 0
  let s2 := if 5 ≤ a.consecutive_high_intensity_days then faddS s1 dbl02 else s1
  let s3 := if a.last_7_days < 3/5 then faddS s2 dbl02 else s2
  let s4 := if a.dedication_percentage < 1/2 then faddS s3 dbl01 else s3
  let s5 := if a.semester_phase = "mid_semester" ∨ a.semester_phase = "late_semester"
    then faddS s4 dbl015 else s4
  let s6 := if a.semester_phase = "finals_period" then faddS s5 dbl025 else s5
  if 2 < a.absence_counter then faddS s6 dbl01 else s6

/-- `_calculate_burnout_risk(data)`: band of the accumulated risk score
(thresholds are the doubles written `0.8`, `0.6`, `0.4` in the source). -/
def calculate_burnout_risk (doc : Doc) : String :=
  let s := riskScoreS doc
  if dbl08 ≤ s then "critical"
  else if dbl06 ≤ s then "high"
  else if dbl04 ≤ s then "medium"
  else "low"

/-- The in-memory part of `_update_full_analytics(data)`: trends, then
dedication (reading the updated trends document), then burnout risk
(reading both). -/
def recomputeMem (mem : Doc) (todayN : ℤ) : Doc :=
  let avg7 := meanCompletion (get_recent_reports mem todayN 7)
  let avg30 := meanCompletion (get_recent_reports mem todayN 30)
  let mem1 := { mem with
    analytics.last_7_days := pyRound2F avg7
    analytics.last_30_days := pyRound2F avg30 }
  let mem2 := { mem1 with
    analytics.dedication_percentage := calculate_dedication_percentage mem1 todayN }
  { mem2 with analytics.burnout_risk := calculate_burnout_risk mem2 }

/-- `_update_full_analytics(data)`: first runs `_update_absence_counter()`
(which loads, refreshes and saves the BACKING STORE, not the in-memory
`data`), then recomputes trends, dedication and burnout risk on the
in-memory document.  Result: `(new in-memory document, new store content)`;
an exception from the absence refresh aborts everything. -/
def update_full_analytics (mem disk : Doc) (todayN : ℤ) :
    Except PyErr (Doc × Doc) :=
  match update_absence_counter disk todayN with
  | .error e => .error e
  | .ok diskA => .ok (recomputeMem mem todayN, diskA)

structure Recommendation where
  recommendation : String
  reason : String
deriving DecidableEq

/-- `_recommend_rest_or_light_day(data)`.  `strptime` on the last holiday
log entry has no exception handler: an unparseable date (e.g. a range
string, as the `report` docstring instructs for consecutive holidays)
raises `ValueError`. -/
def recommend_rest_or_light_day (doc : Doc) (todayN : ℤ) :
    Except PyErr Recommendation :=
  let a := doc.analytics
  let core : Recommendation :=
    if a.burnout_risk = "critical" then
      ⟨"MANDATORY_REST", "Critical burnout risk detected. Rest is required."⟩
    else if a.burnout_risk = "high" then
      ⟨"RECOMMENDED_REST", "High burnout risk detected."⟩
    else if a.burnout_risk = "medium" ∨ 3 ≤ a.consecutive_high_intensity_days then
      ⟨"RECOMMENDED_LIGHT_DAY",
        "Burnout risk is medium or user has had 3+ high-intensity days."⟩
    else ⟨"PROCEED_NORMALLY", "Analytics indicate user is ready for a productive day."⟩
  match a.holidays_log.getLast? with
  | none => .ok core
  | some entry =>
    match parseDate entry.date with
    | none => .error .valueError
    | some d =>
      if todayN - (d : ℤ) ≤ 2 then
        .ok ⟨"PROCEED_NORMALLY", "A day off was taken very recently."⟩
      else .ok core

/-! ## Tool operations (state transformers over the backing store) -/

inductive ReadinessResult where
  | blocked (message : String) (unreported_date : String) (tasks : List PlanTask)
  | planExist (message : String) (plan : List (String × Plan)) (semester_phase : String)
  | alreadyReported (rep : Report) (comment : String)
  | ready (rest_or_light_day : Recommendation) (long_term_tasks : List (String × String))
      (semester_phase : String) (absence_counter : ℤ)
deriving DecidableEq

/-- The blocking scan of `check_readiness_for_planning`: the date keys of
`plan` that have no entry in `reports` and are strictly below today
(Python string comparison on ISO dates). -/
def unreportedDates (disk : Doc) (todayS : String) : List String :=
  (disk.plan.map Prod.fst).filter
    (fun d => (alookup disk.reports d).isNone && strLt d todayS)

/-- `check_readiness_for_planning()`.  The constant `instruction` and
`day_of_week` presentation fields of the READY payload are omitted.  In the
READY branch, `_update_full_analytics` persists the refreshed absence
counter to the store while the recomputed in-memory analytics are only
returned, and `_recommend_rest_or_light_day` can raise on an unparseable
holiday date. -/
def check_readiness_for_planning (disk : Doc) (todayS : String) (todayN : ℤ) :
    Doc × Except PyErr ReadinessResult :=
  match minString (unreportedDates disk todayS) with
  | some earliest =>
    (disk, .ok (.blocked
      ("Unreported plan for " ++ earliest ++ ". Accountability check required.")
      earliest
      (((alookup disk.plan earliest).map Plan.tasks).getD [])))
  | none =>
    if (alookup disk.plan todayS).isSome then
      (disk, .ok (.planExist
        ("There is already a plan for today, " ++ todayS ++ ".")
        disk.plan disk.analytics.semester_phase))
    else
      match alookup disk.reports todayS with
      | some rep =>
        let comment :=
          if 0.9 ≤ rep.completion_rate then "Excellent work! See you tomorrow."
          else if 0.75 ≤ rep.completion_rate then "Good job, see you tomorrow."
          else if 0.5 ≤ rep.completion_rate then "Decent effort, see you tomorrow."
          else "Try to improve tomorrow."
        (disk, .ok (.alreadyReported rep comment))
      | none =>
        match update_full_analytics disk disk todayN with
        | .error e => (disk, .error e)
        | .ok (mem, diskA) =>
          match recommend_rest_or_light_day mem todayN with
          | .error e => (diskA, .error e)
          | .ok rec =>
            (diskA, .ok (.ready rec mem.long_term_tasks
              mem.analytics.semester_phase mem.analytics.absence_counter))

/-- `task["name"].split(" ")[0]`: the prefix before the first space. -/
def firstToken (s : String) : String := ⟨s.data.takeWhile (fun c => decide (c ≠ ' '))⟩

/-- One iteration of the skipped-task loop in `report`: ensure the key
exists, increment `skip_count`, append the reason, and append a pattern
alert if the new count is ≥ 3. -/
def skipStep (acc : List (String × ProblemTask) × List String) (task : TaskRef) :
    List (String × ProblemTask) × List String :=
  let base := firstToken task.name
  let prior := (alookup acc.1 base).getD ⟨0, []⟩
  let updated : ProblemTask :=
    ⟨prior.skip_count + 1, prior.skip_reasons ++ [task.reason.getD "unknown"]⟩
  let pt := aset acc.1 base updated
  let alerts :=
    if 3 ≤ updated.skip_count then acc.2 ++ ["3rd_skip_pattern for " ++ base]
    else acc.2
  (pt, alerts)

inductive ReportResult where
  | holidayLogged (status : String)
  | absenceLogged (status : String)
  | noPlan (error : String)
  | logged (status : String) (new_dedication : ℚ) (triggered_patterns : List String)
deriving DecidableEq

/-- `report(date, completed, partial, skipped, was_absent, absence_reason,
was_holiday, holiday_reason)`.  `nowIso` stands for
`datetime.now().isoformat()`.  In the normal branch the final
`_save_data(data)` writes the in-memory document wholesale, so the absence
refresh that `_update_full_analytics` stored on the side is overwritten by
the stale in-memory counter. -/
def report (disk : Doc) (todayS : String) (todayN : ℤ) (date : String)
    (completed : List String) (partials skipped : List TaskRef)
    (was_absent : Bool) (absence_reason : String)
    (was_holiday : Bool) (holiday_reason : String) (nowIso : String) :
    Doc × Except PyErr ReportResult :=
  if was_holiday then
    ({ disk with
        analytics.holidays_log :=
          disk.analytics.holidays_log ++ [⟨date, holiday_reason, todayS⟩]
        analytics.consecutive_high_intensity_days := 0 },
      .ok (.holidayLogged ("Holiday for " ++ date ++ " logged successfully.")))
  else if was_absent then
    ({ disk with
        analytics.absence_log :=
          disk.analytics.absence_log ++ [⟨date, absence_reason, todayS⟩]
        analytics.consecutive_high_intensity_days := 0 },
      .ok (.absenceLogged "Absence logged successfully."))
  else
    match alookup disk.plan date with
    | none => (disk, .ok (.noPlan ("No plan found for date " ++ date ++ ".")))
    | some originalPlan =>
      let total_tasks := originalPlan.tasks.length
      let completion_rate : ℚ :=
        if 0 < total_tasks then fdiv (completed.length : ℚ) (total_tasks : ℚ) else 0
      let newReport : Report :=
        ⟨completed, partials, skipped, pyRound2F completion_rate, nowIso⟩
      let mem1 := { disk with reports := aset disk.reports date newReport }
      let folded := skipped.foldl skipStep (mem1.analytics.problem_tasks, [])
      let mem2 := { mem1 with analytics.problem_tasks := folded.1 }
      match update_full_analytics mem2 disk todayN with
      | .error e => (disk, .error e)
      | .ok (mem3, _) =>
        (mem3, .ok (.logged "Report logged successfully."
          mem3.analytics.dedication_percentage folded.2))

/-- `set_daily_plan(date, tasks, context, energy_level)`: replaces the whole
`plan` mapping with the single new entry, stamps `last_task_date`, zeroes
the absence counter and updates the intensity streak.  `createdAt` stands
for `datetime.now().isoformat()`. -/
def set_daily_plan (disk : Doc) (date : String) (tasks : List PlanTask)
    (context energy_level createdAt : String) : Doc × Plan :=
  let total_time := (tasks.map PlanTask.estimated_time).sum
  let plan_data : Plan := ⟨tasks, context, energy_level, total_time, createdAt⟩
  let newStreak :=
    if context = "hectic" ∨ 5 < total_time then
      disk.analytics.consecutive_high_intensity_days + 1
    else 0
  ({ disk with
      plan := [(date, plan_data)]
      analytics.last_task_date := date
      analytics.absence_counter := 0
      analytics.consecutive_high_intensity_days := newStreak },
    plan_data)

/-- `get_analytics_context()`: recomputes analytics and persists the
in-memory document (again overwriting the side-stored absence refresh). -/
def get_analytics_context (disk : Doc) (todayN : ℤ) :
    Doc × Except PyErr Analytics :=
  match update_full_analytics disk disk todayN with
  | .error e => (disk, .error e)
  | .ok (mem, _) => (mem, .ok mem.analytics)

inductive PhaseResult where
  | success (new_phase : String)
  | invalidPhase (error : String)
deriving DecidableEq

def valid_phases : List String :=
  ["early_semester", "mid_semester", "late_semester", "finals_period", "semester_break"]

/-- `update_semester_phase(phase)`: rejects phases outside the fixed enum
with a structured error and does not touch the store in that case. -/
def update_semester_phase (disk : Doc) (phase : String) : Doc × PhaseResult :=
  if phase ∈ valid_phases then
    ({ disk with analytics.semester_phase := phase }, .success phase)
  else
    (disk, .invalidPhase "Invalid phase. Must be one of the valid phases.")

/-- `edit_long_term_tasks(new_tasks)`. -/
def edit_long_term_tasks (disk : Doc) (new_tasks : List (String × String)) : Doc :=
  { disk with long_term_tasks := new_tasks }

/-- `validate_day_off_request()`: recomputes analytics (persisting only the
absence refresh), then scores the request.  The human-readable `reasons`
trace is omitted; `strptime` on the last holiday log entry has no handler
and raises on an unparseable date. -/
def validate_day_off_request (disk : Doc) (todayN : ℤ) :
    Doc × Except PyErr ℚ :=
  match update_full_analytics disk disk todayN with
  | .error e => (disk, .error e)
  | .ok (mem, diskA) =>
    let a := mem.analytics
    let s1 : ℚ := fadd (1/2) (fmul (fsub a.dedication_percentage d07q) (1/2))
    let s2 : ℚ :=
      if a.semester_phase = "mid_semester" ∨ a.semester_phase = "late_semester" ∨
          a.semester_phase = "finals_period" then fadd s1 d02q
      else if a.semester_phase = "early_semester" then fsub s1 d02q
      else if a.semester_phase = "semester_break" then fadd s1 d02q
      else s1
    let s3 : Except PyErr ℚ :=
      match a.holidays_log.getLast? with
      | none => .ok s2
      | some entry =>
        match parseDate entry.date with
        | none => .error .valueError
        | some d => .ok (if todayN - (d : ℤ) ≤ 4 then fsub s2 d04q else s2)
    match s3 with
    | .error e => (diskA, .error e)
    | .ok sc =>
      let s4 := if a.burnout_risk = "high" ∨ a.burnout_risk = "critical"
        then fadd sc d03q else sc
      (diskA, .ok (pyRound2F (max 0 (min 1 s4))))

/-- One engine invocation, for stating whole-history invariants.  Read-only
tools (`get_recent_reports`, `show_long_term_tasks`) never write the store
and are omitted. -/
inductive Op where
  | checkReadiness (todayS : String) (todayN : ℤ)
  | doReport (todayS : String) (todayN : ℤ) (date : String)
      (completed : List String) (partials skipped : List TaskRef)
      (was_absent : Bool) (absence_reason : String)
      (was_holiday : Bool) (holiday_reason : String) (nowIso : String)
  | setDailyPlan (date : String) (tasks : List PlanTask)
      (context energy_level createdAt : String)
  | getAnalyticsContext (todayN : ℤ)
  | updateSemesterPhase (phase : String)
  | editLongTermTasks (new_tasks : List (String × String))
  | validateDayOff (todayN : ℤ)

/-- The store content after one invocation. -/
def applyOp (disk : Doc) : Op → Doc
  | .checkReadiness s n => (check_readiness_for_planning disk s n).1
  | .doReport s n date c p sk wa ar wh hr iso =>
      (report disk s n date c p sk wa ar wh hr iso).1
  | .setDailyPlan date tasks c e ca => (set_daily_plan disk date tasks c e ca).1
  | .getAnalyticsContext n => (get_analytics_context disk n).1
  | .updateSemesterPhase ph => (update_semester_phase disk ph).1
  | .editLongTermTasks lt => edit_long_term_tasks disk lt
  | .validateDayOff n => (validate_day_off_request disk n).1

/-- The store content after a sequence of invocations. -/
def runOps (disk : Doc) (ops : List Op) : Doc := ops.foldl applyOp disk

/-! ## General lemmas about the readiness gate -/

theorem minString_eq_none {l : List String} : minString l = none ↔ l = [] := by
  cases l with
  | nil => simp [minString]
  | cons x xs => simp [minString]

theorem mem_unreportedDates {disk : Doc} {todayS d : String} :
    d ∈ unreportedDates disk todayS ↔
      d ∈ disk.plan.map Prod.fst ∧ alookup disk.reports d = none ∧
        strLt d todayS = true := by
  simp [unreportedDates, List.mem_filter, Option.isNone_iff_eq_none, and_assoc]

/-- If the readiness check answers BLOCKED, the surfaced date is the
minimum of the blocking scan and the tasks are those of its plan. -/
theorem blocked_inversion {disk : Doc} {todayS : String} {todayN : ℤ}
    {msg d : String} {ts : List PlanTask}
    (h : (check_readiness_for_planning disk todayS todayN).2 =
      .ok (.blocked msg d ts)) :
    minString (unreportedDates disk todayS) = some d ∧
      ts = ((alookup disk.plan d).map Plan.tasks).getD [] := by
  unfold check_readiness_for_planning at h
  rcases hm : minString (unreportedDates disk todayS) with _ | e
  · rw [hm] at h
    simp only at h
    by_cases hp : (alookup disk.plan todayS).isSome
    · rw [if_pos hp] at h
      simp at h
    · rw [if_neg hp] at h
      rcases hr : alookup disk.reports todayS with _ | rep
      · rw [hr] at h
        simp only at h
        rcases hu : update_full_analytics disk disk todayN with e' | pair
        · rw [hu] at h
          simp at h
        · rw [hu] at h
          obtain ⟨mem, diskA⟩ := pair
          simp only at h
          rcases hrec : recommend_rest_or_light_day mem todayN with e' | rec
          · rw [hrec] at h
            simp at h
          · rw [hrec] at h
            simp at h
      · rw [hr] at h
        simp at h
  · rw [hm] at h
    simp only [Except.ok.injEq, ReadinessResult.blocked.injEq] at h
    obtain ⟨_, h2, h3⟩ := h
    subst h2
    exact ⟨rfl, h3.symm⟩

/-- If the blocking scan has a minimum, the readiness check answers BLOCKED
with it. -/
theorem blocked_of_minString {disk : Doc} {todayS : String} {todayN : ℤ}
    {d : String} (hm : minString (unreportedDates disk todayS) = some d) :
    (check_readiness_for_planning disk todayS todayN).2 =
      .ok (.blocked ("Unreported plan for " ++ d ++ ". Accountability check required.")
        d (((alookup disk.plan d).map Plan.tasks).getD [])) := by
  unfold check_readiness_for_planning
  rw [hm]

/--
C1.  For every document and every date today, `check_readiness_for_planning`
returns BLOCKED exactly when some date key in the plan mapping is strictly
earlier than today (Python string order on ISO dates) and absent from the
reports mapping; in that case it surfaces the earliest such date together
with that plan task list, taking precedence over the PLAN_EXISTS,
ALREADY_REPORTED and READY outcomes.
-/
theorem readiness_blocked_characterization (disk : Doc) (todayS : String) (todayN : ℤ) :
    ((∃ msg d ts, (check_readiness_for_planning disk todayS todayN).2 =
        .ok (.blocked msg d ts)) ↔
      ∃ d, d ∈ disk.plan.map Prod.fst ∧ alookup disk.reports d = none ∧
        strLt d todayS = true) ∧
    (∀ msg d ts, (check_readiness_for_planning disk todayS todayN).2 =
        .ok (.blocked msg d ts) →
      (d ∈ disk.plan.map Prod.fst ∧ alookup disk.reports d = none ∧
        strLt d todayS = true) ∧
      (∀ x, x ∈ disk.plan.map Prod.fst → alookup disk.reports x = none →
        strLt x todayS = true → strLt x d = false) ∧
      ts = ((alookup disk.plan d).map Plan.tasks).getD []) := by
  constructor
  · constructor
    · rintro ⟨msg, d, ts, h⟩
      obtain ⟨hm, -⟩ := blocked_inversion h
      obtain ⟨hmem, -⟩ := minString_spec _ _ hm
      exact ⟨d, mem_unreportedDates.mp hmem⟩
    · rintro ⟨d, hd⟩
      have hne : unreportedDates disk todayS ≠ [] := by
        intro hnil
        have : d ∈ unreportedDates disk todayS := mem_unreportedDates.mpr hd
        rw [hnil] at this
        exact absurd this (List.not_mem_nil d)
      rcases hm : minString (unreportedDates disk todayS) with _ | m
      · exact absurd (minString_eq_none.mp hm) hne
      · exact ⟨"Unreported plan for " ++ m ++ ". Accountability check required.", m,
          ((alookup disk.plan m).map Plan.tasks).getD [], blocked_of_minString hm⟩
  · intro msg d ts h
    obtain ⟨hm, hts⟩ := blocked_inversion h
    obtain ⟨hmem, hmin⟩ := minString_spec _ _ hm
    refine ⟨mem_unreportedDates.mp hmem, ?_, hts⟩
    intro x hx1 hx2 hx3
    exact hmin x (mem_unreportedDates.mpr ⟨hx1, hx2, hx3⟩)

/-- The Readiness Gate scenario of the spec: a plan for 2025-01-01, no
report for it. -/
def c1plan : Plan := ⟨[⟨"Task A", 1⟩, ⟨"Task B", 2⟩], "normal", "medium", 3, "t0"⟩

def c1doc : Doc where
  plan := [("2025-01-01", c1plan)]
  reports := []
  long_term_tasks := []
  analytics :=
    { problem_tasks := []
      last_7_days := 0
      last_30_days := 0
      dedication_percentage := 0.7
      absence_counter := 0
      last_task_date := ""
      semester_phase := "N/A"
      consecutive_high_intensity_days := 0
      burnout_risk := "low"
      absence_log := []
      holidays_log := [] }

/-- Witness for C1 at the spec scenario: today is 2025-01-03 (day number
739559), the plan date 2025-01-01 is unreported, so the gate is BLOCKED on
a date that is a plan key, unreported, and strictly before today. -/
theorem readiness_blocked_characterization_witness :
    ∃ msg d ts,
      (check_readiness_for_planning c1doc "2025-01-03" 739559).2 =
        .ok (.blocked msg d ts) ∧
      d ∈ c1doc.plan.map Prod.fst ∧ alookup c1doc.reports d = none ∧
      strLt d "2025-01-03" = true := by
  obtain ⟨msg, d, ts, h⟩ :=
    (readiness_blocked_characterization c1doc "2025-01-03" 739559).1.mpr
      ⟨"2025-01-01", by decide, by decide, by decide⟩
  obtain ⟨⟨h1, h2, h3⟩, -, -⟩ :=
    (readiness_blocked_characterization c1doc "2025-01-03" 739559).2 msg d ts h
  exact ⟨msg, d, ts, h, h1, h2, h3⟩

/-! ## The store after a readiness check (claim C4) -/

/-- All document components other than `analytics.absence_counter` survive
the absence refresh unchanged. -/
theorem update_absence_frame {d : Doc} {n : ℤ} {d' : Doc}
    (h : update_absence_counter d n = .ok d') :
    d'.plan = d.plan ∧ d'.reports = d.reports ∧
    d'.long_term_tasks = d.long_term_tasks ∧
    d'.analytics.problem_tasks = d.analytics.problem_tasks ∧
    d'.analytics.last_7_days = d.analytics.last_7_days ∧
    d'.analytics.last_30_days = d.analytics.last_30_days ∧
    d'.analytics.dedication_percentage = d.analytics.dedication_percentage ∧
    d'.analytics.last_task_date = d.analytics.last_task_date ∧
    d'.analytics.semester_phase = d.analytics.semester_phase ∧
    d'.analytics.consecutive_high_intensity_days
      = d.analytics.consecutive_high_intensity_days ∧
    d'.analytics.burnout_risk = d.analytics.burnout_risk ∧
    d'.analytics.absence_log = d.analytics.absence_log ∧
    d'.analytics.holidays_log = d.analytics.holidays_log := by
  unfold update_absence_counter at h
  by_cases h0 : d.analytics.last_task_date = ""
  · rw [if_pos h0] at h
    injection h with h
    subst h
    exact ⟨rfl, rfl, rfl, rfl, rfl, rfl, rfl, rfl, rfl, rfl, rfl, rfl, rfl⟩
  · rw [if_neg h0] at h
    rcases hp : parseDate d.analytics.last_task_date with _ | L
    · rw [hp] at h
      exact absurd h (by simp)
    · rw [hp] at h
      injection h with h
      subst h
      obtain ⟨dp, dr, dl, da⟩ := d
      obtain ⟨a1, a2, a3, a4, a5, a6, a7, a8, a9, a10, a11⟩ := da
      exact ⟨rfl, rfl, rfl, rfl, rfl, rfl, rfl, rfl, rfl, rfl, rfl, rfl, rfl⟩

/-- `_update_full_analytics` stores exactly the output of
`_update_absence_counter`. -/
theorem update_full_store {mem disk : Doc} {n : ℤ} {a b : Doc}
    (h : update_full_analytics mem disk n = .ok (a, b)) :
    update_absence_counter disk n = .ok b := by
  unfold update_full_analytics at h
  rcases hu : update_absence_counter disk n with e | dA
  · rw [hu] at h
    exact absurd h (by simp)
  · rw [hu] at h
    simp only [Except.ok.injEq, Prod.mk.injEq] at h
    rw [h.2]

/-- `_update_full_analytics` returns the recomputed in-memory document as
its surfaced component. -/
theorem update_full_mem {mem disk : Doc} {n : ℤ} {a b : Doc}
    (h : update_full_analytics mem disk n = .ok (a, b)) :
    a = recomputeMem mem n := by
  unfold update_full_analytics at h
  rcases hu : update_absence_counter disk n with e | dA
  · rw [hu] at h
    exact absurd h (by simp)
  · rw [hu] at h
    simp only [Except.ok.injEq, Prod.mk.injEq] at h
    rw [h.1]

/-- The store after `check_readiness_for_planning` is either untouched or
exactly the output of the absence refresh. -/
theorem readiness_store (disk : Doc) (todayS : String) (todayN : ℤ) :
    (check_readiness_for_planning disk todayS todayN).1 = disk ∨
      update_absence_counter disk todayN =
        .ok (check_readiness_for_planning disk todayS todayN).1 := by
  rcases hm : minString (unreportedDates disk todayS) with _ | e
  · by_cases hp : (alookup disk.plan todayS).isSome
    · left
      simp only [check_readiness_for_planning, hm, if_pos hp]
    · rcases hr : alookup disk.reports todayS with _ | rep
      · rcases hu : update_full_analytics disk disk todayN with e' | pair
        · left
          simp only [check_readiness_for_planning, hm, if_neg hp, hr, hu]
        · obtain ⟨mem, diskA⟩ := pair
          have hstore := update_full_store hu
          rcases hrec : recommend_rest_or_light_day mem todayN with e' | rec
          · right
            simpa only [check_readiness_for_planning, hm, if_neg hp, hr, hu, hrec]
              using hstore
          · right
            simpa only [check_readiness_for_planning, hm, if_neg hp, hr, hu, hrec]
              using hstore
      · left
        simp only [check_readiness_for_planning, hm, if_neg hp, hr]
  · left
    simp only [check_readiness_for_planning, hm]

/--
C4 (amended).  `check_readiness_for_planning` is a pure decision function in
the BLOCKED, PLAN_EXIST and ALREADY_REPORTED branches, and the recomputed
trends, dedication percentage and burnout risk are never persisted in any
branch; but in the READY branch the refreshed `absence_counter` IS persisted
(by the `_update_absence_counter` call inside `_update_full_analytics`,
which saves its own freshly loaded copy): the store after the call is either
unchanged or exactly the output of the absence refresh, and in every case it
agrees with the store before the call on every component other than
`analytics.absence_counter`.
-/
theorem readiness_gate_frame (disk : Doc) (todayS : String) (todayN : ℤ) :
    ((check_readiness_for_planning disk todayS todayN).1 = disk ∨
      update_absence_counter disk todayN =
        .ok (check_readiness_for_planning disk todayS todayN).1) ∧
    (check_readiness_for_planning disk todayS todayN).1.plan = disk.plan ∧
    (check_readiness_for_planning disk todayS todayN).1.reports = disk.reports ∧
    (check_readiness_for_planning disk todayS todayN).1.long_term_tasks
      = disk.long_term_tasks ∧
    (check_readiness_for_planning disk todayS todayN).1.analytics.problem_tasks
      = disk.analytics.problem_tasks ∧
    (check_readiness_for_planning disk todayS todayN).1.analytics.last_7_days
      = disk.analytics.last_7_days ∧
    (check_readiness_for_planning disk todayS todayN).1.analytics.last_30_days
      = disk.analytics.last_30_days ∧
    (check_readiness_for_planning disk todayS todayN).1.analytics.dedication_percentage
      = disk.analytics.dedication_percentage ∧
    (check_readiness_for_planning disk todayS todayN).1.analytics.last_task_date
      = disk.analytics.last_task_date ∧
    (check_readiness_for_planning disk todayS todayN).1.analytics.semester_phase
      = disk.analytics.semester_phase ∧
    (check_readiness_for_planning disk todayS todayN).1.analytics.consecutive_high_intensity_days
      = disk.analytics.consecutive_high_intensity_days ∧
    (check_readiness_for_planning disk todayS todayN).1.analytics.burnout_risk
      = disk.analytics.burnout_risk ∧
    (check_readiness_for_planning disk todayS todayN).1.analytics.absence_log
      = disk.analytics.absence_log ∧
    (check_readiness_for_planning disk todayS todayN).1.analytics.holidays_log
      = disk.analytics.holidays_log := by
  refine ⟨readiness_store disk todayS todayN, ?_⟩
  rcases readiness_store disk todayS todayN with h | h
  · rw [h]
    exact ⟨rfl, rfl, rfl, rfl, rfl, rfl, rfl, rfl, rfl, rfl, rfl, rfl, rfl⟩
  · exact update_absence_frame h

/-- A document in READY position with a stale absence counter: empty plan
and reports, `last_task_date = "2025-01-01"`, stored counter 0. -/
def c4doc : Doc where
  plan := []
  reports := []
  long_term_tasks := []
  analytics :=
    { problem_tasks := []
      last_7_days := 0
      last_30_days := 0
      dedication_percentage := 0.7
      absence_counter := 0
      last_task_date := "2025-01-01"
      semester_phase := "N/A"
      consecutive_high_intensity_days := 0
      burnout_risk := "low"
      absence_log := []
      holidays_log := [] }

/-- The store after the absence refresh of `c4doc` on 2025-01-10
(day number 739566): the counter becomes `max 0 (9 - 1) = 8`. -/
def c4docRefreshed : Doc := { c4doc with analytics.absence_counter := 8 }

theorem c4_absence_refresh :
    update_absence_counter c4doc 739566 = .ok c4docRefreshed := by
  have h8 : max 0 ((739566:ℤ) - (739557:ℕ) - 1) = 8 := by norm_num
  unfold update_absence_counter
  rw [if_neg (by decide : ¬ (c4doc.analytics.last_task_date = ""))]
  rw [show parseDate c4doc.analytics.last_task_date = some 739557 from by decide]
  show Except.ok
      { c4doc with analytics.absence_counter := max 0 ((739566:ℤ) - (739557:ℕ) - 1) }
    = Except.ok c4docRefreshed
  rw [h8]
  rfl

/-- Counterexample to C4 as stated: on `c4doc` with today = 2025-01-10 the
READY branch persists a changed document (the refreshed absence counter). -/
theorem readiness_gate_frame_counterexample :
    (check_readiness_for_planning c4doc "2025-01-10" 739566).1 ≠ c4doc := by
  have hu : update_full_analytics c4doc c4doc 739566 =
      .ok (recomputeMem c4doc 739566, c4docRefreshed) := by
    unfold update_full_analytics
    rw [c4_absence_refresh]
  have hm : minString (unreportedDates c4doc "2025-01-10") = none := by decide
  have hp : ¬ ((alookup c4doc.plan "2025-01-10").isSome = true) := by decide
  have hr : alookup c4doc.reports "2025-01-10" = none := by decide
  have h1 : (check_readiness_for_planning c4doc "2025-01-10" 739566).1
      = c4docRefreshed := by
    rcases hrec : recommend_rest_or_light_day (recomputeMem c4doc 739566) 739566
        with e | rec
    · simp only [check_readiness_for_planning, hm, if_neg hp, hr, hu, hrec]
    · simp only [check_readiness_for_planning, hm, if_neg hp, hr, hu, hrec]
  rw [h1]
  intro h
  have h2 := congrArg (fun d => d.analytics.absence_counter) h
  simp only [c4docRefreshed, c4doc] at h2
  exact absurd h2 (by decide)

/-! ## Claim C2: which absence counter feeds the dedication formula -/

/-- Field-preservation of the in-memory recomputation: only trends,
dedication and burnout risk change. -/
theorem recomputeMem_frame (mem : Doc) (n : ℤ) :
    (recomputeMem mem n).plan = mem.plan ∧
    (recomputeMem mem n).reports = mem.reports ∧
    (recomputeMem mem n).long_term_tasks = mem.long_term_tasks ∧
    (recomputeMem mem n).analytics.problem_tasks = mem.analytics.problem_tasks ∧
    (recomputeMem mem n).analytics.absence_counter = mem.analytics.absence_counter ∧
    (recomputeMem mem n).analytics.last_task_date = mem.analytics.last_task_date ∧
    (recomputeMem mem n).analytics.semester_phase = mem.analytics.semester_phase ∧
    (recomputeMem mem n).analytics.consecutive_high_intensity_days
      = mem.analytics.consecutive_high_intensity_days ∧
    (recomputeMem mem n).analytics.absence_log = mem.analytics.absence_log ∧
    (recomputeMem mem n).analytics.holidays_log = mem.analytics.holidays_log := by
  obtain ⟨p, r, l, a⟩ := mem
  obtain ⟨a1, a2, a3, a4, a5, a6, a7, a8, a9, a10, a11⟩ := a
  exact ⟨rfl, rfl, rfl, rfl, rfl, rfl, rfl, rfl, rfl, rfl⟩

/-- The dedication value produced by the in-memory recomputation, written
out on the fields of the input document: the absence counter it reads is
the document value, untouched by the recomputation. -/
theorem recomputeMem_dedication (mem : Doc) (n : ℤ) :
    (recomputeMem mem n).analytics.dedication_percentage =
      pyRound2F (fadd (fadd
        (fmul (meanCompletion (get_recent_reports mem n 14)) (1/2))
        (fmul (max 0 (fsub 1
          (fmul (fl (mem.analytics.absence_counter : ℚ)) d02q))) d03q))
        (fmul (if mem.analytics.consecutive_high_intensity_days ≤ 3 then (1:ℚ)
           else max 0 (fsub 1
             (fmul (fl ((mem.analytics.consecutive_high_intensity_days : ℚ) - 3))
               (1/4))))
          d02q)) := by
  obtain ⟨p, r, l, a⟩ := mem
  obtain ⟨a1, a2, a3, a4, a5, a6, a7, a8, a9, a10, a11⟩ := a
  rfl

/-- The 7-day trend value produced by the in-memory recomputation. -/
theorem recomputeMem_trends7 (mem : Doc) (n : ℤ) :
    (recomputeMem mem n).analytics.last_7_days =
      pyRound2F (meanCompletion (get_recent_reports mem n 7)) := by
  obtain ⟨p, r, l, a⟩ := mem
  obtain ⟨a1, a2, a3, a4, a5, a6, a7, a8, a9, a10, a11⟩ := a
  rfl

/-- The 30-day trend value produced by the in-memory recomputation. -/
theorem recomputeMem_trends30 (mem : Doc) (n : ℤ) :
    (recomputeMem mem n).analytics.last_30_days =
      pyRound2F (meanCompletion (get_recent_reports mem n 30)) := by
  obtain ⟨p, r, l, a⟩ := mem
  obtain ⟨a1, a2, a3, a4, a5, a6, a7, a8, a9, a10, a11⟩ := a
  rfl

/--
C2 (amended).  recompute refreshes `absence_counter = max(0, (today -
last_task_date) - 1)` on the PERSISTED copy of the document, but the
dedication percentage it computes and surfaces — the two-decimal rounding
of the IEEE-double evaluation of `0.5 * completion_rate_14d + 0.3 *
max(0, 1.0 - 0.2 * absence_counter) + 0.2 * intensity_factor` — uses the
in-memory document value of `absence_counter` from before the refresh:
the refresh is applied to a separately loaded copy that is saved to
storage, and step 3 reads the in-memory document, not the output of
step 1.
-/
theorem dedication_uses_stale_absence_counter (mem disk : Doc) (n : ℤ) :
    ((update_full_analytics mem disk n).map
        (fun p => p.1.analytics.dedication_percentage)
      = (update_absence_counter disk n).map (fun _ =>
          pyRound2F (fadd (fadd
            (fmul (meanCompletion (get_recent_reports mem n 14)) (1/2))
            (fmul (max 0 (fsub 1
              (fmul (fl (mem.analytics.absence_counter : ℚ)) d02q))) d03q))
            (fmul (if mem.analytics.consecutive_high_intensity_days ≤ 3 then (1:ℚ)
               else max 0 (fsub 1
                 (fmul (fl ((mem.analytics.consecutive_high_intensity_days : ℚ) - 3))
                   (1/4))))
              d02q)))) ∧
    ((update_full_analytics mem disk n).map
        (fun p => p.1.analytics.absence_counter)
      = (update_absence_counter disk n).map
          (fun _ => mem.analytics.absence_counter)) ∧
    (∀ L : ℕ, parseDate disk.analytics.last_task_date = some L →
      (update_full_analytics mem disk n).map
          (fun p => p.2.analytics.absence_counter)
        = .ok (max 0 (n - (L:ℤ) - 1))) := by
  refine ⟨?_, ?_, ?_⟩
  · unfold update_full_analytics
    rcases hu : update_absence_counter disk n with e | dA
    · rfl
    · simp only [Except.map]
      rw [recomputeMem_dedication]
  · unfold update_full_analytics
    rcases hu : update_absence_counter disk n with e | dA
    · rfl
    · simp only [Except.map]
      rw [(recomputeMem_frame mem n).2.2.2.2.1]
  · intro L hL
    have hne : ¬ (disk.analytics.last_task_date = "") := by
      intro h0
      rw [h0, show parseDate "" = none from rfl] at hL
      exact Option.noConfusion hL
    unfold update_full_analytics update_absence_counter
    rw [if_neg hne, hL]
    rfl

/-- A document with a stale absence counter: `last_task_date = 2025-01-01`,
stored counter 0, no reports, no intensity streak. -/
def c2doc : Doc where
  plan := []
  reports := []
  long_term_tasks := []
  analytics :=
    { problem_tasks := []
      last_7_days := 0
      last_30_days := 0
      dedication_percentage := 0.7
      absence_counter := 0
      last_task_date := "2025-01-01"
      semester_phase := "N/A"
      consecutive_high_intensity_days := 0
      burnout_risk := "low"
      absence_log := []
      holidays_log := [] }

def c2docRefreshed : Doc := { c2doc with analytics.absence_counter := 8 }

theorem c2_absence_refresh :
    update_absence_counter c2doc 739566 = .ok c2docRefreshed := by
  have h8 : max 0 ((739566:ℤ) - (739557:ℕ) - 1) = 8 := by norm_num
  unfold update_absence_counter
  rw [if_neg (by decide : ¬ (c2doc.analytics.last_task_date = ""))]
  rw [show parseDate c2doc.analytics.last_task_date = some 739557 from by decide]
  show Except.ok
      { c2doc with analytics.absence_counter := max 0 ((739566:ℤ) - (739557:ℕ) - 1) }
    = Except.ok c2docRefreshed
  rw [h8]
  rfl

set_option maxHeartbeats 1600000 in
set_option maxRecDepth 4000 in
/-- Counterexample to C2 as stated: on `c2doc` with today = 2025-01-10
(nine days after the last task), the refresh sets the persisted counter to
8, so the dedication the claim prescribes is `round2(0.2) = 0.2`; but the
dedication actually computed and surfaced is `round2(0.5) = 0.5`, built
from the stale counter 0 (the float additions involved, `0.3 + 0.2`, are
exact in binary64, so no double-rounding noise intervenes here). -/
theorem dedication_stale_counterexample :
    (update_full_analytics c2doc c2doc 739566).map
        (fun p => p.1.analytics.dedication_percentage) = .ok (1/2) ∧
    (update_full_analytics c2doc c2doc 739566).map
        (fun p => p.2.analytics.absence_counter) = .ok 8 ∧
    pyRound2 ((0:ℚ) * 0.5 + max 0 (1 - (8:ℚ) * 0.2) * 0.3 + 1 * 0.2) = 1/5 ∧
    (1:ℚ)/2 ≠ 1/5 := by
  have hu : update_full_analytics c2doc c2doc 739566 =
      .ok (recomputeMem c2doc 739566, c2docRefreshed) := by
    unfold update_full_analytics
    rw [c2_absence_refresh]
  refine ⟨?_, ?_, ?_, by norm_num⟩
  · rw [hu]
    simp only [Except.map]
    rw [recomputeMem_dedication]
    rw [show get_recent_reports c2doc 739566 14 = [] from by decide]
    norm_num [c2doc, meanCompletion, pyRound2F, fadd, fsub, fmul, fl,
      binadeSearch, bisectStep, pow2, rndHalfEven, d02q, d03q, max_def]
  · rw [hu]
    rfl
  · norm_num [pyRound2, rndHalfEven, max_def]

/-- Witness for the amended C2 at a concrete input: the persisted counter
after recompute on `c2doc` is the refreshed `max 0 (today - last - 1)`. -/
theorem dedication_uses_stale_absence_counter_witness :
    (update_full_analytics c2doc c2doc 739566).map
        (fun p => p.2.analytics.absence_counter)
      = .ok (max 0 ((739566:ℤ) - (739557:ℕ) - 1)) :=
  (dedication_uses_stale_absence_counter c2doc c2doc 739566).2.2 739557 (by decide)

/-! ## Claim C3: which reports feed the completion trends -/

/-- Modelled from the spec (4.2 step 2): select reports whose date `d`
satisfies `0 <= today - d < window`; trend = arithmetic mean of
`completion_rate` over that set, or 0.0 if the set is empty, rounded to 2
decimal places.  Used only to compare the claimed selection against the
code, which lacks the lower bound. -/
def specTrend (doc : Doc) (todayN window : ℤ) : ℚ :=
  let sel := (doc.reports.filter (fun q =>
    match parseDate q.1 with
    | some d => decide (0 ≤ todayN - (d:ℤ)) && decide (todayN - (d:ℤ) < window)
    | none => false)).map Prod.snd
  pyRound2 (if sel = [] then 0
    else (sel.map Report.completion_rate).sum / (sel.length : ℚ))

/--
C3 (amended).  The recomputed completion trends select exactly the reports
whose date parses and satisfies `today - d < window` (there is no lower
bound); the trend is the IEEE-double arithmetic mean over that set (a
left-to-right float sum divided by the count), 0.0 when it is empty,
rounded to two decimals.  In particular a report dated strictly after
today IS included, contrary to the claimed `0 <= today - d` restriction.
-/
theorem recompute_trends_selection (mem disk : Doc) (n : ℤ) :
    ((update_full_analytics mem disk n).map (fun p => p.1.analytics.last_7_days)
      = (update_absence_counter disk n).map (fun _ =>
          pyRound2F (meanCompletion ((mem.reports.filter (fun q =>
            match parseDate q.1 with
            | some d => decide (n - (d:ℤ) < 7)
            | none => false)).map Prod.snd)))) ∧
    ((update_full_analytics mem disk n).map (fun p => p.1.analytics.last_30_days)
      = (update_absence_counter disk n).map (fun _ =>
          pyRound2F (meanCompletion ((mem.reports.filter (fun q =>
            match parseDate q.1 with
            | some d => decide (n - (d:ℤ) < 30)
            | none => false)).map Prod.snd)))) ∧
    (∀ q : String × Report, ∀ d : ℕ, q ∈ mem.reports → parseDate q.1 = some d →
      n < (d:ℤ) →
      q ∈ mem.reports.filter (fun q =>
        match parseDate q.1 with
        | some d => decide (n - (d:ℤ) < 7)
        | none => false)) := by
  refine ⟨?_, ?_, ?_⟩
  · unfold update_full_analytics
    rcases hu : update_absence_counter disk n with e | dA
    · rfl
    · simp only [Except.map]
      rw [recomputeMem_trends7]
      rfl
  · unfold update_full_analytics
    rcases hu : update_absence_counter disk n with e | dA
    · rfl
    · simp only [Except.map]
      rw [recomputeMem_trends30]
      rfl
  · intro q d hq hparse hfuture
    rw [List.mem_filter]
    refine ⟨hq, ?_⟩
    simp only [hparse]
    rw [decide_eq_true_eq]
    omega

/-- A document whose only report is dated 2025-12-31 (day number 739921),
far in the future of today = 2025-01-01 (739557). -/
def c3report : Report := ⟨["T1"], [], [], 1, "t1"⟩

def c3doc : Doc where
  plan := []
  reports := [("2025-12-31", c3report)]
  long_term_tasks := []
  analytics :=
    { problem_tasks := []
      last_7_days := 0
      last_30_days := 0
      dedication_percentage := 0.7
      absence_counter := 0
      last_task_date := ""
      semester_phase := "N/A"
      consecutive_high_intensity_days := 0
      burnout_risk := "low"
      absence_log := []
      holidays_log := [] }

set_option maxHeartbeats 1600000 in
set_option maxRecDepth 4000 in
/-- Counterexample to C3 as stated: the recomputed 7-day trend on `c3doc`
at today = 2025-01-01 is 1.0 (the future-dated report is included), while
the claimed selection (with the `0 <= today - d` bound) is empty and yields
0.0. -/
theorem trends_future_report_counterexample :
    (update_full_analytics c3doc c3doc 739557).map
        (fun p => p.1.analytics.last_7_days) = .ok 1 ∧
    specTrend c3doc 739557 7 = 0 ∧ (1:ℚ) ≠ 0 := by
  have hu : update_full_analytics c3doc c3doc 739557 =
      .ok (recomputeMem c3doc 739557, c3doc) := by
    unfold update_full_analytics update_absence_counter
    rw [if_pos (show c3doc.analytics.last_task_date = "" from rfl)]
  have hparse : parseDate "2025-12-31" = some 739921 := by decide
  refine ⟨?_, ?_, by norm_num⟩
  · rw [hu]
    simp only [Except.map]
    rw [recomputeMem_trends7]
    norm_num [get_recent_reports, c3doc, c3report, List.filter, hparse,
      meanCompletion, pyRound2F, fdiv, fadd, fl, binadeSearch, bisectStep,
      pow2, rndHalfEven]
  · norm_num [specTrend, c3doc, c3report, List.filter, hparse,
      pyRound2, rndHalfEven]

/-- Witness for the amended C3 at a concrete input: the future-dated report
of `c3doc` passes the 7-day filter on 2025-01-01. -/
theorem recompute_trends_selection_witness :
    ("2025-12-31", c3report) ∈ c3doc.reports.filter (fun q =>
      match parseDate q.1 with
      | some d => decide ((739557:ℤ) - (d:ℤ) < 7)
      | none => false) :=
  (recompute_trends_selection c3doc c3doc 739557).2.2 ("2025-12-31", c3report)
    739921 (by simp [c3doc]) (by decide) (by decide)

/-! ## Claim C5: the burnout band -/

/-- What a normal `report` call stores at `reports[date]`: the submitted
lists and the rounded completion rate `round(|completed| / |plan.tasks|, 2)`
— the float quotient rounded to two decimals — (0 when the plan has no
tasks), provided the absence refresh does not raise. -/
theorem report_stored_rate (disk : Doc) (todayS : String) (todayN : ℤ)
    (date : String) (completed : List String) (partials skipped : List TaskRef)
    (nowIso : String) (p : Plan)
    (hp : alookup disk.plan date = some p)
    (dA : Doc) (hA : update_absence_counter disk todayN = .ok dA) :
    alookup (report disk todayS todayN date completed partials skipped
        false "" false "" nowIso).1.reports date =
      some ⟨completed, partials, skipped,
        pyRound2F (if 0 < p.tasks.length then
          fdiv (completed.length : ℚ) (p.tasks.length : ℚ) else 0), nowIso⟩ := by
  unfold report
  simp only [Bool.false_eq_true, if_false, hp]
  unfold update_full_analytics
  rw [hA]
  simp only [Except.ok.injEq]
  rw [(recomputeMem_frame _ _).2.1]
  exact alookup_aset_self _ _ _

/--
C6 (amended).  For every normal (non-holiday, non-absence) report against a
date that has a plan, the stored completion_rate equals
`round(|completed| / |plan.tasks|, 2)` computed as CPython does: the
correctly rounded DOUBLE quotient, rounded half-to-even to two decimals on
its exact value, stored as the double nearest that decimal; it is 0 when
the plan has zero tasks (the division is guarded).  A plan with 4 tasks
reported with 2 completed names yields exactly 0.5, but for example 1 of 3
stores the double 0.33, not 1/3.
-/
theorem report_completion_rate (disk : Doc) (todayS : String) (todayN : ℤ)
    (date : String) (completed : List String) (partials skipped : List TaskRef)
    (nowIso : String) (p : Plan)
    (hp : alookup disk.plan date = some p)
    (dA : Doc) (hA : update_absence_counter disk todayN = .ok dA) :
    (alookup (report disk todayS todayN date completed partials skipped
        false "" false "" nowIso).1.reports date).map Report.completion_rate =
      some (pyRound2F (if 0 < p.tasks.length then
        fdiv (completed.length : ℚ) (p.tasks.length : ℚ) else 0)) := by
  rw [report_stored_rate disk todayS todayN date completed partials skipped
    nowIso p hp dA hA]
  rfl

def c6plan3 : Plan := ⟨[⟨"A", 1⟩, ⟨"B", 1⟩, ⟨"C", 1⟩], "normal", "medium", 3, "t0"⟩

def c6doc3 : Doc where
  plan := [("2025-02-01", c6plan3)]
  reports := []
  long_term_tasks := []
  analytics :=
    { problem_tasks := []
      last_7_days := 0
      last_30_days := 0
      dedication_percentage := 0.7
      absence_counter := 0
      last_task_date := ""
      semester_phase := "N/A"
      consecutive_high_intensity_days := 0
      burnout_risk := "low"
      absence_log := []
      holidays_log := [] }

set_option maxHeartbeats 1600000 in
set_option maxRecDepth 4000 in
/-- Counterexample to C6 as stated: reporting 1 completed task of a 3-task
plan stores `round(1/3, 2) = 0.33` — the IEEE double
`5944751508129055 / 2 ^ 54`, the value CPython prints as `0.33` — which is
not `1/3`. -/
theorem report_completion_rate_counterexample :
    (alookup (report c6doc3 "2025-02-01" 739588 "2025-02-01" ["A"] [] []
        false "" false "" "t1").1.reports "2025-02-01").map Report.completion_rate
      = some (5944751508129055/18014398509481984) ∧
    (5944751508129055:ℚ)/18014398509481984 ≠ 1/3 := by
  constructor
  · rw [report_stored_rate c6doc3 "2025-02-01" 739588 "2025-02-01" ["A"] [] []
      "t1" c6plan3 (by simp [c6doc3, alookup]) c6doc3
      (by unfold update_absence_counter
          rw [if_pos (show c6doc3.analytics.last_task_date = "" from rfl)])]
    norm_num [c6plan3, pyRound2F, fdiv, fl, binadeSearch, bisectStep, pow2,
      rndHalfEven]
  · norm_num

def c6plan4 : Plan :=
  ⟨[⟨"A", 1⟩, ⟨"B", 1⟩, ⟨"C", 1⟩, ⟨"D", 1⟩], "normal", "medium", 4, "t0"⟩

def c6doc4 : Doc where
  plan := [("2025-02-01", c6plan4)]
  reports := []
  long_term_tasks := []
  analytics :=
    { problem_tasks := []
      last_7_days := 0
      last_30_days := 0
      dedication_percentage := 0.7
      absence_counter := 0
      last_task_date := ""
      semester_phase := "N/A"
      consecutive_high_intensity_days := 0
      burnout_risk := "low"
      absence_log := []
      holidays_log := [] }

set_option maxHeartbeats 1600000 in
set_option maxRecDepth 4000 in
/-- Witness for the amended C6 at the spec scenario: 2 completed of 4
planned tasks stores exactly 0.5 (the double quotient and its two-decimal
rounding are both exactly one half). -/
theorem report_completion_rate_witness :
    (alookup (report c6doc4 "2025-02-01" 739588 "2025-02-01" ["A", "B"] [] []
        false "" false "" "t1").1.reports "2025-02-01").map Report.completion_rate
      = some (pyRound2F (if 0 < c6plan4.tasks.length then
          fdiv ((["A", "B"].length : ℕ) : ℚ) (c6plan4.tasks.length : ℚ) else 0)) ∧
    pyRound2F (if 0 < c6plan4.tasks.length then
        fdiv ((["A", "B"].length : ℕ) : ℚ) (c6plan4.tasks.length : ℚ) else 0)
      = 1/2 := by
  constructor
  · exact report_completion_rate c6doc4 "2025-02-01" 739588 "2025-02-01"
      ["A", "B"] [] [] "t1" c6plan4 (by simp [c6doc4, alookup]) c6doc4
      (by unfold update_absence_counter
          rw [if_pos (show c6doc4.analytics.last_task_date = "" from rfl)])
  · norm_num [c6plan4, pyRound2F, fdiv, fl, binadeSearch, bisectStep, pow2,
      rndHalfEven]

/-! ## Claim C7: skip-pattern grouping and alerts -/

/-- The skip count recorded for a grouping key (0 when the key is absent,
matching the initialisation in `report`). -/
def skCount (pt : List (String × ProblemTask)) (k : String) : ℤ :=
  ((alookup pt k).getD ⟨0, []⟩).skip_count

/-- The reasons recorded for a grouping key. -/
def skReasons (pt : List (String × ProblemTask)) (k : String) : List String :=
  ((alookup pt k).getD ⟨0, []⟩).skip_reasons

theorem skipStep_fst (pt : List (String × ProblemTask)) (al : List String)
    (t : TaskRef) :
    (skipStep (pt, al) t).1 =
      aset pt (firstToken t.name)
        ⟨skCount pt (firstToken t.name) + 1,
         skReasons pt (firstToken t.name) ++ [t.reason.getD "unknown"]⟩ := rfl

theorem skipStep_snd (pt : List (String × ProblemTask)) (al : List String)
    (t : TaskRef) :
    (skipStep (pt, al) t).2 =
      if 3 ≤ skCount pt (firstToken t.name) + 1 then
        al ++ ["3rd_skip_pattern for " ++ firstToken t.name]
      else al := rfl

theorem skCount_aset (pt : List (String × ProblemTask)) (b k : String)
    (v : ProblemTask) :
    skCount (aset pt b v) k = if k = b then v.skip_count else skCount pt k := by
  by_cases h : k = b
  · subst h
    simp [skCount, alookup_aset_self]
  · simp [skCount, alookup_aset_other pt b k v h, h]

theorem skReasons_aset (pt : List (String × ProblemTask)) (b k : String)
    (v : ProblemTask) :
    skReasons (aset pt b v) k = if k = b then v.skip_reasons else skReasons pt k := by
  by_cases h : k = b
  · subst h
    simp [skReasons, alookup_aset_self]
  · simp [skReasons, alookup_aset_other pt b k v h, h]

/-- The problem-task table produced by the skipped-task loop does not
depend on the alert accumulator, and alerts are only appended. -/
theorem skipFold_acc (ts : List TaskRef) (pt : List (String × ProblemTask))
    (al : List String) :
    (ts.foldl skipStep (pt, al)).1 = (ts.foldl skipStep (pt, [])).1 ∧
    (ts.foldl skipStep (pt, al)).2 = al ++ (ts.foldl skipStep (pt, [])).2 := by
  induction ts generalizing pt al with
  | nil => simp
  | cons t ts ih =>
    simp only [List.foldl_cons]
    rcases skipStep_decomp : skipStep (pt, al) t with ⟨pt1, al1⟩
    have h1 : pt1 = (skipStep (pt, []) t).1 := by
      rw [show pt1 = (skipStep (pt, al) t).1 from by rw [skipStep_decomp]]
      rw [skipStep_fst, skipStep_fst]
    have h2 : al1 = al ++ (skipStep (pt, []) t).2 := by
      rw [show al1 = (skipStep (pt, al) t).2 from by rw [skipStep_decomp]]
      rw [skipStep_snd, skipStep_snd]
      by_cases h : 3 ≤ skCount pt (firstToken t.name) + 1
      · rw [if_pos h, if_pos h]
        simp
      · rw [if_neg h, if_neg h]
        simp
    rcases skipStep_decomp0 : skipStep (pt, []) t with ⟨pt0, al0⟩
    have h1' : pt1 = pt0 := by
      rw [h1, skipStep_decomp0]
    have h2' : al1 = al ++ al0 := by
      rw [h2, skipStep_decomp0]
    subst h1'
    subst h2'
    obtain ⟨iha, ihb⟩ := ih pt1 (al ++ al0)
    obtain ⟨ihc, ihd⟩ := ih pt1 al0
    refine ⟨?_, ?_⟩
    · rw [iha, ihc]
    · rw [ihb, ihd, List.append_assoc]

theorem skCount_skipStep (pt : List (String × ProblemTask)) (al : List String)
    (t : TaskRef) (k : String) :
    skCount (skipStep (pt, al) t).1 k =
      if k = firstToken t.name then skCount pt (firstToken t.name) + 1
      else skCount pt k := by
  rw [skipStep_fst, skCount_aset]

theorem skReasons_skipStep (pt : List (String × ProblemTask)) (al : List String)
    (t : TaskRef) (k : String) :
    skReasons (skipStep (pt, al) t).1 k =
      if k = firstToken t.name then
        skReasons pt (firstToken t.name) ++ [t.reason.getD "unknown"]
      else skReasons pt k := by
  rw [skipStep_fst, skReasons_aset]

/-- Along the skipped-task loop the count of a key grows by the number of
skipped tasks grouped to it. -/
theorem skipFold_count (ts : List TaskRef) (pt : List (String × ProblemTask))
    (al : List String) (k : String) :
    skCount (ts.foldl skipStep (pt, al)).1 k =
      skCount pt k + ((ts.filter (fun t => decide (firstToken t.name = k))).length : ℤ) := by
  induction ts generalizing pt al with
  | nil => simp
  | cons t ts ih =>
    simp only [List.foldl_cons]
    rcases hstep : skipStep (pt, al) t with ⟨pt1, al1⟩
    have h1 : pt1 = (skipStep (pt, al) t).1 := by rw [hstep]
    by_cases hk : firstToken t.name = k
    · rw [List.filter_cons_of_pos (by simp [hk]), List.length_cons]
      rw [ih pt1 al1, h1, skCount_skipStep, if_pos hk.symm, ← hk]
      push_cast
      ring
    · rw [List.filter_cons_of_neg (by simp [hk])]
      rw [ih pt1 al1, h1, skCount_skipStep, if_neg (fun hh => hk hh.symm)]

/-- Along the skipped-task loop the reasons of a key accumulate in order. -/
theorem skipFold_reasons (ts : List TaskRef) (pt : List (String × ProblemTask))
    (al : List String) (k : String) :
    skReasons (ts.foldl skipStep (pt, al)).1 k =
      skReasons pt k ++ (ts.filter (fun t => decide (firstToken t.name = k))).map
        (fun t => t.reason.getD "unknown") := by
  induction ts generalizing pt al with
  | nil => simp
  | cons t ts ih =>
    simp only [List.foldl_cons]
    rcases hstep : skipStep (pt, al) t with ⟨pt1, al1⟩
    have h1 : pt1 = (skipStep (pt, al) t).1 := by rw [hstep]
    by_cases hk : firstToken t.name = k
    · rw [List.filter_cons_of_pos (by simp [hk]), List.map_cons]
      rw [ih pt1 al1, h1, skReasons_skipStep, if_pos hk.symm, ← hk]
      simp
    · rw [List.filter_cons_of_neg (by simp [hk])]
      rw [ih pt1 al1, h1, skReasons_skipStep, if_neg (fun hh => hk hh.symm)]

theorem string_append_cancel {a b c : String} (h : a ++ b = a ++ c) : b = c := by
  have hd := congrArg String.data h
  rw [String.data_append, String.data_append] at hd
  have hbc := List.append_cancel_left hd
  cases b
  cases c
  exact congrArg String.mk hbc

/-- Membership in the alert list produced by the skipped-task loop: the
pattern alert for a key is emitted exactly when the key is skipped in this
report and its accumulated count after the loop is at least 3. -/
theorem skipFold_alert_mem (ts : List TaskRef) (pt : List (String × ProblemTask))
    (k : String) :
    ("3rd_skip_pattern for " ++ k) ∈ (ts.foldl skipStep (pt, [])).2 ↔
      ((∃ t ∈ ts, firstToken t.name = k) ∧
        3 ≤ skCount (ts.foldl skipStep (pt, [])).1 k) := by
  induction ts using List.reverseRecOn with
  | nil => simp
  | append_singleton ts t ih =>
    simp only [List.foldl_append, List.foldl_cons, List.foldl_nil]
    rcases hF : ts.foldl skipStep (pt, []) with ⟨PT, AL⟩
    rw [hF] at ih
    dsimp only at ih
    by_cases hk : firstToken t.name = k
    · subst hk
      rw [skipStep_snd, skCount_skipStep, if_pos rfl]
      by_cases h3 : 3 ≤ skCount PT (firstToken t.name) + 1
      · rw [if_pos h3]
        constructor
        · intro _
          exact ⟨⟨t, by simp, rfl⟩, h3⟩
        · intro _
          simp
      · rw [if_neg h3]
        constructor
        · intro hmem
          obtain ⟨hex, hcnt⟩ := ih.mp hmem
          exact absurd (by omega : (3:ℤ) ≤ skCount PT (firstToken t.name) + 1) h3
        · rintro ⟨hex, hcnt⟩
          exact absurd hcnt h3
    · have hexiff : (∃ x ∈ ts ++ [t], firstToken x.name = k) ↔
          (∃ x ∈ ts, firstToken x.name = k) := by
        constructor
        · rintro ⟨x, hx, he⟩
          rcases List.mem_append.mp hx with h | h
          · exact ⟨x, h, he⟩
          · rw [List.mem_singleton] at h
            subst h
            exact absurd he hk
        · rintro ⟨x, hx, he⟩
          exact ⟨x, List.mem_append_left _ hx, he⟩
      rw [skipStep_snd, skCount_skipStep,
        if_neg (show ¬ (k = firstToken t.name) from fun hh => hk hh.symm), hexiff]
      have hne : ¬ ("3rd_skip_pattern for " ++ k =
          "3rd_skip_pattern for " ++ firstToken t.name) :=
        fun hh => hk (string_append_cancel hh).symm
      by_cases h3 : 3 ≤ skCount PT (firstToken t.name) + 1
      · rw [if_pos h3]
        simp only [List.mem_append, List.mem_singleton, hne, or_false]
        exact ih
      · rw [if_neg h3]
        exact ih

/-- The problem-task table persisted by a normal `report` call is the
output of the skipped-task loop over the prior table. -/
theorem report_problem_tasks (disk : Doc) (todayS : String) (todayN : ℤ)
    (date : String) (completed : List String) (partials skipped : List TaskRef)
    (nowIso : String) (p : Plan)
    (hp : alookup disk.plan date = some p)
    (dA : Doc) (hA : update_absence_counter disk todayN = .ok dA) :
    (report disk todayS todayN date completed partials skipped
        false "" false "" nowIso).1.analytics.problem_tasks =
      (skipped.foldl skipStep (disk.analytics.problem_tasks, [])).1 := by
  unfold report
  simp only [Bool.false_eq_true, if_false, hp]
  unfold update_full_analytics
  rw [hA]
  simp only
  rw [(recomputeMem_frame _ _).2.2.2.1]

/-- The visible result of a normal `report` call: logged status with the
alert list of the skipped-task loop. -/
theorem report_result (disk : Doc) (todayS : String) (todayN : ℤ)
    (date : String) (completed : List String) (partials skipped : List TaskRef)
    (nowIso : String) (p : Plan)
    (hp : alookup disk.plan date = some p)
    (dA : Doc) (hA : update_absence_counter disk todayN = .ok dA) :
    ∃ ded : ℚ, (report disk todayS todayN date completed partials skipped
        false "" false "" nowIso).2 =
      .ok (.logged "Report logged successfully." ded
        (skipped.foldl skipStep (disk.analytics.problem_tasks, [])).2) := by
  unfold report
  simp only [Bool.false_eq_true, if_false, hp]
  unfold update_full_analytics
  rw [hA]
  exact ⟨_, rfl⟩

/--
C7.  For every normal report against a planned date, `report` groups each
skipped task by the first space-delimited token of its name, increments
that key's skip_count and appends its reason (in order), and the returned
alert list contains the pattern alert for a key exactly when the key is
skipped in this report and its accumulated skip_count after the increments
is at least 3 — so the alert fires on the report that reaches 3 and
re-fires on every later report that skips the same key.
-/
theorem skip_pattern_alerts (disk : Doc) (todayS : String) (todayN : ℤ)
    (date : String) (completed : List String) (partials skipped : List TaskRef)
    (nowIso : String) (p : Plan)
    (hp : alookup disk.plan date = some p)
    (dA : Doc) (hA : update_absence_counter disk todayN = .ok dA) :
    (∃ ded : ℚ, (report disk todayS todayN date completed partials skipped
        false "" false "" nowIso).2 =
      .ok (.logged "Report logged successfully." ded
        (skipped.foldl skipStep (disk.analytics.problem_tasks, [])).2)) ∧
    (∀ k : String,
      ("3rd_skip_pattern for " ++ k) ∈
          (skipped.foldl skipStep (disk.analytics.problem_tasks, [])).2 ↔
        ((∃ t ∈ skipped, firstToken t.name = k) ∧
          3 ≤ skCount (report disk todayS todayN date completed partials skipped
            false "" false "" nowIso).1.analytics.problem_tasks k)) ∧
    (∀ k : String,
      skCount (report disk todayS todayN date completed partials skipped
          false "" false "" nowIso).1.analytics.problem_tasks k =
        skCount disk.analytics.problem_tasks k +
          ((skipped.filter (fun t => decide (firstToken t.name = k))).length : ℤ)) ∧
    (∀ k : String,
      skReasons (report disk todayS todayN date completed partials skipped
          false "" false "" nowIso).1.analytics.problem_tasks k =
        skReasons disk.analytics.problem_tasks k ++
          (skipped.filter (fun t => decide (firstToken t.name = k))).map
            (fun t => t.reason.getD "unknown")) := by
  have hpt := report_problem_tasks disk todayS todayN date completed partials
    skipped nowIso p hp dA hA
  refine ⟨report_result disk todayS todayN date completed partials skipped
    nowIso p hp dA hA, ?_, ?_, ?_⟩
  · intro k
    rw [hpt]
    exact skipFold_alert_mem skipped disk.analytics.problem_tasks k
  · intro k
    rw [hpt]
    exact skipFold_count skipped disk.analytics.problem_tasks [] k
  · intro k
    rw [hpt]
    exact skipFold_reasons skipped disk.analytics.problem_tasks [] k

def c7plan : Plan := ⟨[⟨"T", 1⟩], "normal", "medium", 1, "t0"⟩

/-- A document whose problem-task table already counts 2 skips for key
`Math`. -/
def c7doc : Doc where
  plan := [("2025-03-01", c7plan)]
  reports := []
  long_term_tasks := []
  analytics :=
    { problem_tasks := [("Math", ⟨2, ["busy", "tired"]⟩)]
      last_7_days := 0
      last_30_days := 0
      dedication_percentage := 0.7
      absence_counter := 0
      last_task_date := ""
      semester_phase := "N/A"
      consecutive_high_intensity_days := 0
      burnout_risk := "low"
      absence_log := []
      holidays_log := [] }

/-- A document whose problem-task table already counts 3 skips for key
`Math` (past the threshold). -/
def c7docB : Doc where
  plan := [("2025-03-01", c7plan)]
  reports := []
  long_term_tasks := []
  analytics :=
    { problem_tasks := [("Math", ⟨3, ["busy", "tired", "hard"]⟩)]
      last_7_days := 0
      last_30_days := 0
      dedication_percentage := 0.7
      absence_counter := 0
      last_task_date := ""
      semester_phase := "N/A"
      consecutive_high_intensity_days := 0
      burnout_risk := "low"
      absence_log := []
      holidays_log := [] }

/-- Witness for C7: skipping a task named `Math homework` fires the alert
on the report that brings the count to 3, and fires again on a later
report when the count is already past 3. -/
theorem skip_pattern_alerts_witness :
    ("3rd_skip_pattern for " ++ "Math") ∈
      ([(⟨"Math homework", some "hard"⟩ : TaskRef)].foldl skipStep
        (c7doc.analytics.problem_tasks, [])).2 ∧
    ("3rd_skip_pattern for " ++ "Math") ∈
      ([(⟨"Math homework", some "lazy"⟩ : TaskRef)].foldl skipStep
        (c7docB.analytics.problem_tasks, [])).2 := by
  obtain ⟨-, hiff, hcount, -⟩ := skip_pattern_alerts c7doc "2025-03-01" 0
    "2025-03-01" [] [] [⟨"Math homework", some "hard"⟩] "t1" c7plan
    (by simp [c7doc, alookup]) c7doc
    (by unfold update_absence_counter
        rw [if_pos (show c7doc.analytics.last_task_date = "" from rfl)])
  obtain ⟨-, hiffB, hcountB, -⟩ := skip_pattern_alerts c7docB "2025-03-01" 0
    "2025-03-01" [] [] [⟨"Math homework", some "lazy"⟩] "t1" c7plan
    (by simp [c7docB, alookup]) c7docB
    (by unfold update_absence_counter
        rw [if_pos (show c7docB.analytics.last_task_date = "" from rfl)])
  constructor
  · refine (hiff "Math").mpr ⟨⟨⟨"Math homework", some "hard"⟩, by simp, by decide⟩, ?_⟩
    rw [hcount "Math"]
    decide
  · refine (hiffB "Math").mpr ⟨⟨⟨"Math homework", some "lazy"⟩, by simp, by decide⟩, ?_⟩
    rw [hcountB "Math"]
    decide

/-! ## Claim C8: idempotence of the recomputation -/

/-- The absence refresh is idempotent: refreshing its own output changes
nothing (the last task date is untouched, so the same counter is written
again). -/
theorem update_absence_idem {disk dA : Doc} {n : ℤ}
    (h : update_absence_counter disk n = .ok dA) :
    update_absence_counter dA n = .ok dA := by
  unfold update_absence_counter at h ⊢
  by_cases h0 : disk.analytics.last_task_date = ""
  · rw [if_pos h0] at h
    injection h with h
    subst h
    rw [if_pos h0]
  · rw [if_neg h0] at h
    rcases hp : parseDate disk.analytics.last_task_date with _ | L
    · rw [hp] at h
      exact absurd h (by simp)
    · rw [hp] at h
      injection h with h
      subst h
      obtain ⟨p, r, l, a⟩ := disk
      obtain ⟨a1, a2, a3, a4, a5c, a6, a7, a8, a9, a10, a11⟩ := a
      dsimp only at h0 hp ⊢
      rw [if_neg h0, hp]

/-- The in-memory recomputation is idempotent: it only rewrites trends,
dedication and burnout risk, none of which feed back into their own
recomputation inputs. -/
theorem recomputeMem_idem (m : Doc) (n : ℤ) :
    recomputeMem (recomputeMem m n) n = recomputeMem m n := by
  obtain ⟨p, r, l, a⟩ := m
  obtain ⟨a1, a2, a3, a4, a5c, a6, a7, a8, a9, a10, a11⟩ := a
  rfl

/--
C8.  Analytics recomputation is idempotent on an unchanged document:
feeding the pair produced by `_update_full_analytics` (recomputed in-memory
document, refreshed store) back through `_update_full_analytics` reproduces
exactly the same pair — the second pass changes no analytics field (trends,
dedication_percentage, burnout_risk, absence_counter).
-/
theorem recompute_idempotent (mem disk : Doc) (n : ℤ) :
    (update_full_analytics mem disk n).bind
        (fun q => update_full_analytics q.1 q.2 n)
      = update_full_analytics mem disk n := by
  rcases hA : update_absence_counter disk n with e | dA
  · unfold update_full_analytics
    rw [hA]
    rfl
  · unfold update_full_analytics
    rw [hA]
    simp only [Except.bind]
    rw [update_absence_idem hA, recomputeMem_idem]

/-! ## Claim C9: the plan mapping is a single slot -/

theorem readiness_plan (disk : Doc) (todayS : String) (todayN : ℤ) :
    (check_readiness_for_planning disk todayS todayN).1.plan = disk.plan := by
  rcases readiness_store disk todayS todayN with h | h
  · rw [h]
  · exact (update_absence_frame h).1

theorem report_plan (disk : Doc) (todayS : String) (todayN : ℤ) (date : String)
    (completed : List String) (partials skipped : List TaskRef)
    (was_absent : Bool) (absence_reason : String)
    (was_holiday : Bool) (holiday_reason : String) (nowIso : String) :
    (report disk todayS todayN date completed partials skipped
      was_absent absence_reason was_holiday holiday_reason nowIso).1.plan
      = disk.plan := by
  unfold report
  cases was_holiday
  · cases was_absent
    · simp only [Bool.false_eq_true, if_false]
      rcases hp : alookup disk.plan date with _ | p
      · rfl
      · unfold update_full_analytics
        rcases hA : update_absence_counter disk todayN with e | dA
        · rfl
        · exact (recomputeMem_frame _ _).1
    · simp only [Bool.false_eq_true, if_false, if_pos rfl]
      rfl
  · simp only [if_pos rfl]
    rfl

theorem get_analytics_plan (disk : Doc) (todayN : ℤ) :
    (get_analytics_context disk todayN).1.plan = disk.plan := by
  unfold get_analytics_context update_full_analytics
  rcases hA : update_absence_counter disk todayN with e | dA
  · rfl
  · exact (recomputeMem_frame _ _).1

theorem update_phase_plan (disk : Doc) (phase : String) :
    (update_semester_phase disk phase).1.plan = disk.plan := by
  unfold update_semester_phase
  by_cases h : phase ∈ valid_phases
  · rw [if_pos h]
  · rw [if_neg h]

theorem validate_day_off_plan (disk : Doc) (todayN : ℤ) :
    (validate_day_off_request disk todayN).1.plan = disk.plan := by
  unfold validate_day_off_request update_full_analytics
  rcases hA : update_absence_counter disk todayN with e | dA
  · rfl
  · have hfr := (update_absence_frame hA).1
    dsimp only
    rcases hL : (recomputeMem disk todayN).analytics.holidays_log.getLast? with _ | entry
    · exact hfr
    · dsimp only
      rcases hp : parseDate entry.date with _ | d
      · exact hfr
      · exact hfr

theorem set_daily_plan_plan (disk : Doc) (date : String) (tasks : List PlanTask)
    (c e ca : String) :
    (set_daily_plan disk date tasks c e ca).1.plan =
      [(date, (set_daily_plan disk date tasks c e ca).2)] := rfl

theorem applyOp_plan_length {disk : Doc} (op : Op)
    (h : disk.plan.length ≤ 1) : (applyOp disk op).plan.length ≤ 1 := by
  cases op with
  | checkReadiness s n =>
    unfold applyOp
    rw [readiness_plan]
    exact h
  | doReport s n date c pt sk wa ar wh hr iso =>
    unfold applyOp
    rw [report_plan]
    exact h
  | setDailyPlan date tasks c e ca =>
    unfold applyOp
    rw [set_daily_plan_plan]
    simp
  | getAnalyticsContext n =>
    unfold applyOp
    rw [get_analytics_plan]
    exact h
  | updateSemesterPhase ph =>
    unfold applyOp
    rw [update_phase_plan]
    exact h
  | editLongTermTasks lt =>
    exact h
  | validateDayOff n =>
    unfold applyOp
    rw [validate_day_off_plan]
    exact h

theorem runOps_plan_length (ops : List Op) :
    ∀ disk : Doc, disk.plan.length ≤ 1 → (runOps disk ops).plan.length ≤ 1 := by
  induction ops with
  | nil => exact fun disk h => h
  | cons op ops ih =>
    intro disk h
    exact ih (applyOp disk op) (applyOp_plan_length op h)

/--
C9.  `set_daily_plan` replaces the entire plan mapping with exactly the one
entry for the given date (any prior plan entry for any other date is
discarded), and no engine operation ever adds another plan entry: starting
from the default document, after any sequence of operations the plan
mapping holds at most one entry, and the blocking scan of the Readiness
Gate can find at most one blocking date.
-/
theorem single_plan_slot :
    (∀ (disk : Doc) (date : String) (tasks : List PlanTask) (c e ca : String),
      (set_daily_plan disk date tasks c e ca).1.plan =
        [(date, (set_daily_plan disk date tasks c e ca).2)]) ∧
    (∀ (s : String) (ops : List Op),
      (runOps (defaultDoc s) ops).plan.length ≤ 1) ∧
    (∀ (s : String) (ops : List Op) (todayS : String),
      (unreportedDates (runOps (defaultDoc s) ops) todayS).length ≤ 1) := by
  refine ⟨fun disk date tasks c e ca => set_daily_plan_plan disk date tasks c e ca,
    ?_, ?_⟩
  · intro s ops
    exact runOps_plan_length ops (defaultDoc s) (by simp [defaultDoc])
  · intro s ops todayS
    calc (unreportedDates (runOps (defaultDoc s) ops) todayS).length
        ≤ ((runOps (defaultDoc s) ops).plan.map Prod.fst).length :=
          List.length_filter_le _ _
      _ = (runOps (defaultDoc s) ops).plan.length := List.length_map _ _
      _ ≤ 1 := runOps_plan_length ops (defaultDoc s) (by simp [defaultDoc])

/-! ## Claim C10: totality of the engine operations -/

/-- A document whose only holiday log entry carries a range string in its
`date` field, exactly as the `report` docstring instructs for consecutive
holidays ("log only one entry with the date field as a range"). -/
def c10doc : Doc where
  plan := []
  reports := []
  long_term_tasks := []
  analytics :=
    { problem_tasks := []
      last_7_days := 0
      last_30_days := 0
      dedication_percentage := 0.7
      absence_counter := 0
      last_task_date := ""
      semester_phase := "N/A"
      consecutive_high_intensity_days := 0
      burnout_risk := "low"
      absence_log := []
      holidays_log := [⟨"2025-07-15 to 2025-07-23", "summer trip", "2025-07-24"⟩] }

theorem c10_absence_refresh :
    update_absence_counter c10doc 739753 = .ok c10doc := by
  unfold update_absence_counter
  rw [if_pos (show c10doc.analytics.last_task_date = "" from rfl)]

theorem c10_holidays :
    (recomputeMem c10doc 739753).analytics.holidays_log.getLast? =
      some ⟨"2025-07-15 to 2025-07-23", "summer trip", "2025-07-24"⟩ := by
  rw [(recomputeMem_frame c10doc 739753).2.2.2.2.2.2.2.2.2]
  rfl

/--
C10.  The claim that every engine operation returns a structured result and
never raises — including on holiday log entries whose date is a range
string — is the documented intent (the `report` docstring instructs logging
ranges), but the code violates it: `validate_day_off_request` and the READY
branch of `check_readiness_for_planning` call `strptime` on
`holidays_log[-1]["date"]` with no exception handler, so a range-dated
holiday entry raises an uncaught `ValueError`.  This theorem evaluates both
operations at such a document and shows the escaped exception.
-/
theorem holiday_range_crash :
    (validate_day_off_request c10doc 739753).2 = .error .valueError ∧
    (check_readiness_for_planning c10doc "2025-07-16" 739753).2 =
      .error .valueError := by
  have hu : update_full_analytics c10doc c10doc 739753 =
      .ok (recomputeMem c10doc 739753, c10doc) := by
    unfold update_full_analytics
    rw [c10_absence_refresh]
  have hparse : parseDate "2025-07-15 to 2025-07-23" = none := by decide
  constructor
  · unfold validate_day_off_request
    rw [hu]
    dsimp only
    rw [c10_holidays]
    dsimp only
    rw [hparse]
  · have hrec : recommend_rest_or_light_day (recomputeMem c10doc 739753) 739753 =
        .error .valueError := by
      unfold recommend_rest_or_light_day
      dsimp only
      rw [c10_holidays]
      dsimp only
      rw [hparse]
    have hm : minString (unreportedDates c10doc "2025-07-16") = none := by decide
    have hp : ¬ ((alookup c10doc.plan "2025-07-16").isSome = true) := by decide
    have hr : alookup c10doc.reports "2025-07-16" = none := by decide
    simp only [check_readiness_for_planning, hm, if_neg hp, hr, hu, hrec]
